import Mathlib

/-!
Verification of the Upload-BPO normalization and reconciliation pipeline.

This file gives a shallow embedding, in Lean 4, of the core parsing and
normalization code of the repository (the alias resolver engine, the static
mapping tables, the period parser, the column accessor, the row transformers,
the dataset statistics and the normalization tracker), and proves or refutes
the specification claims about that code.

Modelling conventions:
  * TypeScript `string | null` becomes `Option String`; absence (`null` or
    `undefined`) is `none`.
  * Spreadsheet cell values (`unknown` in the source) become the inductive
    type `CellValue` (null, string, finite number, boolean, date).  JS
    numbers are modelled as exact rationals; floating point rounding is not
    modelled (no claim depends on it).
  * Module-global mutable state (the injected DB resolvers and the
    normalization tracker) is threaded explicitly as parameters and returned
    state, following the state-passing re-architecture the design notes of
    the specification themselves prescribe.  `nanoid` record ids and the
    wall clock are external effects and are omitted from the embedded
    records.
  * The JS regular-expression engine used for *user-supplied* alias rule
    patterns is external input; resolver definitions are parameterized by a
    `RegexEngine` that either compiles a pattern to a matcher or fails
    (modelling `new RegExp` throwing).  The *hard-coded* regex literals of
    the static mapping tables are translated individually into executable
    character-list matchers.
  * Throwing code (`parseWorkbook`, `parseSingleSheet`) returns
    `Except String`.
-/

set_option maxHeartbeats 2000000

set_option maxRecDepth 4096

namespace UploadBPO

/-! ## JS string primitives (modelled on lists of characters) -/

/-- Whitespace test used for `\s`, `.trim()` and whitespace collapsing. -/
def isWs (c : Char) : Bool := c.isWhitespace

/-- Drop a literal prefix from a character list; `none` when it is not a prefix. -/
def dropPfx : List Char → List Char → Option (List Char)
  | cs, [] => some cs
  | [], _ :: _ => none
  | c :: cs, p :: ps => if c = p then dropPfx cs ps else none

/-- Does `sub` occur contiguously inside `l`?  (JS `String.prototype.includes`.) -/
def strIncludesL (l sub : List Char) : Bool :=
  match dropPfx l sub with
  | some _ => true
  | none =>
    match l with
    | [] => false
    | _ :: rest => strIncludesL rest sub

/-- JS `s.includes(sub)`. -/
def strIncludes (s sub : String) : Bool := strIncludesL s.data sub.data

/-- JS `s.toLowerCase()` (basic-latin, as in the source data). -/
def lowerStr (s : String) : String := String.mk (s.data.map Char.toLower)

/-- JS `s.toUpperCase()` (basic-latin, as in the source data). -/
def upperStr (s : String) : String := String.mk (s.data.map Char.toUpper)

/-- Trim whitespace from both ends of a character list. -/
def trimCharsL (l : List Char) : List Char :=
  ((l.dropWhile isWs).reverse.dropWhile isWs).reverse

/-- JS `s.trim()`. -/
def trimStr (s : String) : String := String.mk (trimCharsL s.data)

/-- Collapse every maximal whitespace run to a single space.
The boolean records whether the previous character was whitespace. -/
def collapseWsAux : List Char → Bool → List Char
  | [], _ => []
  | c :: rest, prevWs =>
    if isWs c then
      if prevWs then collapseWsAux rest true else ' ' :: collapseWsAux rest true
    else c :: collapseWsAux rest false

/-- JS `s.replace(/\s+/g, ' ')` (no trimming). -/
def collapseWs (s : String) : String := String.mk (collapseWsAux s.data false)

/-- `normalizeWhitespace` from the source: collapse whitespace runs, then trim. -/
def normalizeWhitespace (s : String) : String := trimStr (collapseWs s)

/-! ## Cell values -/

/-- A calendar date cell (UTC components, day granularity; xlsx `cellDates`
produces midnight dates).  `month0` is the 0-based month as in
`Date.prototype.getUTCMonth`. -/
structure DateVal where
  year : Int
  month0 : Fin 12
  day : Nat
deriving DecidableEq

/-- A decoded spreadsheet cell (`unknown` in the source). -/
inductive CellValue where
  | null : CellValue
  | str : String → CellValue
  | num : ℚ → CellValue
  | bool : Bool → CellValue
  | date : DateVal → CellValue
deriving DecidableEq

/-- Two-digit zero padding for ISO formatting. -/
def pad2 (n : Nat) : String := if n < 10 then "0" ++ toString n else toString n

/-- Year formatting for ISO strings (nonnegative years zero-padded to 4). -/
def pad4 (i : Int) : String :=
  if 0 ≤ i ∧ i < 10 then "000" ++ toString i
  else if 0 ≤ i ∧ i < 100 then "00" ++ toString i
  else if 0 ≤ i ∧ i < 1000 then "0" ++ toString i
  else toString i

/-- `Date.prototype.toISOString` at day granularity. -/
def isoString (d : DateVal) : String :=
  pad4 d.year ++ "-" ++ pad2 (d.month0.val + 1) ++ "-" ++ pad2 d.day ++ "T00:00:00.000Z"

/-- Decimal rendering of a JS number; integers render as in JS.  (Exact decimal
formatting of non-integers is not needed by any claim and is rendered as a
fraction.) -/
def qToString (q : ℚ) : String :=
  if q.den = 1 then toString q.num else toString q.num ++ "/" ++ toString q.den

/-- JS `String(value)` for a (non-null) cell. -/
def cellToString : CellValue → String
  | .null => "null"
  | .str s => s
  | .num q => qToString q
  | .bool b => if b then "true" else "false"
  | .date d => isoString d

/-- JS truthiness of a cell value (`''`, `0`, `false` and `null` are falsy). -/
def cellTruthy : CellValue → Bool
  | .null => false
  | .str s => s ≠ ""
  | .num q => q ≠ 0
  | .bool b => b
  | .date _ => true

/-- JS truthiness of a nullable cell. -/
def optCellTruthy : Option CellValue → Bool
  | none => false
  | some v => cellTruthy v

/-- JS truthiness of a nullable string. -/
def optStrTruthy : Option String → Bool
  | none => false
  | some s => s ≠ ""

/-! ## Alias rules and the resolver engine
(`createMetricResolver` in src/lib/mappings/metricResolver.ts and the
textually identical `createIndustryResolver` in industryResolver.ts). -/

/-- `match_type` column of an alias rule. -/
inductive MatchType where
  | exact : MatchType
  | contains : MatchType
  | regex : MatchType
deriving DecidableEq

/-- A dynamic alias rule row (`MetricAliasRow` / `IndustryAliasRow`).
`canonical_name` stands for `canonical_name` resp. `canonical_industry`;
`aliasPattern` is the `alias` column. -/
structure AliasRule where
  canonical_name : String
  aliasPattern : String
  match_type : MatchType
  case_sensitive : Bool
  priority : Int
  client : Option String
deriving DecidableEq

/-- The external JS regex engine: compiles a pattern (with the case-sensitivity
flag of the rule) to a matcher, or fails (`new RegExp` throws). -/
def RegexEngine : Type := String → Bool → Option (String → Bool)

/-- A regex engine on which every pattern fails to compile. -/
def noRegex : RegexEngine := fun _ _ => none

/-- JS truthiness of the nullable `client` column (`''` is falsy). -/
def clientTruthy : Option String → Bool
  | none => false
  | some s => s ≠ ""

/-- The client-match tier of the sort comparator:
`a.client === client ? 2 : a.client ? 1 : 0`. -/
def clientTier (tag : Option String) (r : AliasRule) : Nat :=
  if r.client = tag then 2 else if clientTruthy r.client then 1 else 0

/-- Sort comparator of the resolver (descending by tier, then priority):
`a` is strictly before `b`. -/
def ruleBefore (tag : Option String) (a b : AliasRule) : Bool :=
  decide (clientTier tag b < clientTier tag a) ||
    (decide (clientTier tag a = clientTier tag b) && decide (b.priority < a.priority))

/-- Stable insertion into a list sorted by the strict order `bf`:
the new element goes after every earlier element it does not strictly precede
(matching ECMAScript stable `Array.prototype.sort`). -/
def insertSorted (bf : α → α → Bool) (x : α) : List α → List α
  | [] => [x]
  | b :: l => if bf x b then x :: b :: l else b :: insertSorted bf x l

/-- Stable sort by the strict order `bf` (elements inserted in original order). -/
def stableSort (bf : α → α → Bool) (l : List α) : List α :=
  l.foldl (fun acc x => insertSorted bf x acc) []

/-- `[...aliases].sort(...)` of the resolver builders. -/
def sortRules (tag : Option String) (rules : List AliasRule) : List AliasRule :=
  stableSort (ruleBefore tag) rules

/-- The skip condition of the evaluation loop:
`row.client && row.client !== client`. -/
def skipRule (tag : Option String) (r : AliasRule) : Bool :=
  clientTruthy r.client && decide (r.client ≠ tag)

/-- Does a single rule match the (trimmed) input string? -/
def ruleMatches (eng : RegexEngine) (r : AliasRule) (input : String) : Bool :=
  match r.match_type with
  | .exact =>
    (if r.case_sensitive then input else lowerStr input) =
      (if r.case_sensitive then r.aliasPattern else lowerStr r.aliasPattern)
  | .contains =>
    strIncludes (if r.case_sensitive then input else lowerStr input)
      (if r.case_sensitive then r.aliasPattern else lowerStr r.aliasPattern)
  | .regex =>
    match eng r.aliasPattern r.case_sensitive with
    | some test => test input
    | none => false

/-- The evaluation loop of the returned resolver closure: first eligible
matching rule wins; a regex that fails to compile never matches. -/
def evalRules (eng : RegexEngine) (tag : Option String) (input : String) :
    List AliasRule → Option String
  | [] => none
  | r :: rest =>
    if skipRule tag r then evalRules eng tag input rest
    else if ruleMatches eng r input then some r.canonical_name
    else evalRules eng tag input rest

/-- Body shared by `createMetricResolver` and `createIndustryResolver`:
null input short-circuits, the input is stringified and trimmed, empty input
short-circuits, then the sorted rules are scanned. -/
def resolveAlias (eng : RegexEngine) (rules : List AliasRule) (tag : Option String)
    (raw : CellValue) : Option String :=
  match raw with
  | .null => none
  | raw =>
    let input := trimStr (cellToString raw)
    if input = "" then none
    else evalRules eng tag input (sortRules tag rules)

/-- `createMetricResolver(aliases, client)` applied to a raw value. -/
def createMetricResolver (eng : RegexEngine) (rules : List AliasRule)
    (tag : Option String) : CellValue → Option String :=
  resolveAlias eng rules tag

/-- `createIndustryResolver(aliases, client)` applied to a raw value
(textually identical to the metric resolver). -/
def createIndustryResolver (eng : RegexEngine) (rules : List AliasRule)
    (tag : Option String) : CellValue → Option String :=
  resolveAlias eng rules tag

/-! ### Order lemmas for the rule comparator -/

theorem ruleBefore_iff (tag : Option String) (a b : AliasRule) :
    ruleBefore tag a b = true ↔
      (clientTier tag b < clientTier tag a ∨
        (clientTier tag a = clientTier tag b ∧ b.priority < a.priority)) := by
  simp [ruleBefore, Bool.or_eq_true, Bool.and_eq_true, decide_eq_true_eq]

theorem ruleBefore_false_iff (tag : Option String) (a b : AliasRule) :
    ruleBefore tag a b = false ↔
      ¬ (clientTier tag b < clientTier tag a ∨
        (clientTier tag a = clientTier tag b ∧ b.priority < a.priority)) := by
  rw [Bool.eq_false_iff]
  exact not_congr (ruleBefore_iff tag a b)

theorem ruleBefore_asymm {tag : Option String} {a b : AliasRule}
    (h : ruleBefore tag a b = true) : ruleBefore tag b a = false := by
  rw [ruleBefore_false_iff]
  rw [ruleBefore_iff] at h
  omega

theorem ruleBefore_trans_left {tag : Option String} {x b z : AliasRule}
    (h1 : ruleBefore tag x b = true) (h2 : ruleBefore tag z b = false) :
    ruleBefore tag x z = true := by
  rw [ruleBefore_false_iff] at h2
  rw [ruleBefore_iff] at h1 ⊢
  omega

theorem ruleBefore_false_trans {tag : Option String} {x b z : AliasRule}
    (h1 : ruleBefore tag x b = true) (h2 : ruleBefore tag z b = false) :
    ruleBefore tag z x = false :=
  ruleBefore_asymm (ruleBefore_trans_left h1 h2)

/-- Sortedness (descending, non-strict) with respect to the rule comparator. -/
def SortedR (tag : Option String) (l : List AliasRule) : Prop :=
  l.Pairwise (fun a b => ruleBefore tag b a = false)

theorem mem_insertSorted {bf : α → α → Bool} {x : α} {l : List α} (z : α) :
    z ∈ insertSorted bf x l ↔ z = x ∨ z ∈ l := by
  induction l with
  | nil => simp [insertSorted]
  | cons b l ih =>
    rw [insertSorted]
    by_cases hc : bf x b
    · rw [if_pos hc]
      exact List.mem_cons
    · rw [if_neg hc, List.mem_cons, ih, List.mem_cons]
      tauto

theorem insertSorted_sortedR {tag : Option String} {x : AliasRule} {l : List AliasRule}
    (h : SortedR tag l) : SortedR tag (insertSorted (ruleBefore tag) x l) := by
  induction l with
  | nil =>
    exact List.Pairwise.cons (fun z hz => absurd hz (List.not_mem_nil z)) List.Pairwise.nil
  | cons b l ih =>
    obtain ⟨h1, h2⟩ := List.pairwise_cons.mp h
    by_cases hc : ruleBefore tag x b
    · rw [insertSorted, if_pos hc]
      refine List.Pairwise.cons ?_ (List.Pairwise.cons h1 h2)
      intro z hz
      rcases List.mem_cons.mp hz with hzb | hzl
      · subst hzb; exact ruleBefore_asymm hc
      · exact ruleBefore_false_trans hc (h1 z hzl)
    · rw [insertSorted, if_neg hc]
      refine List.Pairwise.cons ?_ (ih h2)
      intro z hz
      rcases (mem_insertSorted z).mp hz with hzx | hzl
      · subst hzx
        exact Bool.eq_false_iff.mpr hc
      · exact h1 z hzl

theorem foldl_insert_sortedR {tag : Option String} :
    ∀ (l : List AliasRule) (acc : List AliasRule), SortedR tag acc →
      SortedR tag (l.foldl (fun a x => insertSorted (ruleBefore tag) x a) acc)
  | [], acc, h => h
  | x :: l, acc, h =>
    foldl_insert_sortedR l (insertSorted (ruleBefore tag) x acc) (insertSorted_sortedR h)

theorem sortRules_sortedR (tag : Option String) (rules : List AliasRule) :
    SortedR tag (sortRules tag rules) :=
  foldl_insert_sortedR rules [] (List.Pairwise.nil)

theorem filter_insertSorted {tag : Option String} (p : AliasRule → Bool)
    {x : AliasRule} {l : List AliasRule} (h : SortedR tag l) :
    (insertSorted (ruleBefore tag) x l).filter p =
      if p x then insertSorted (ruleBefore tag) x (l.filter p) else l.filter p := by
  induction l with
  | nil =>
    by_cases hpx : p x <;> simp [insertSorted, List.filter, hpx]
  | cons b l ih =>
    obtain ⟨h1, h2⟩ := List.pairwise_cons.mp h
    by_cases hc : ruleBefore tag x b
    · rw [insertSorted, if_pos hc]
      by_cases hpx : p x
      · by_cases hpb : p b
        · conv_lhs => rw [List.filter_cons, if_pos hpx, List.filter_cons, if_pos hpb]
          conv_rhs => rw [if_pos hpx, List.filter_cons, if_pos hpb, insertSorted, if_pos hc]
        · conv_lhs => rw [List.filter_cons, if_pos hpx, List.filter_cons, if_neg hpb]
          conv_rhs => rw [if_pos hpx, List.filter_cons, if_neg hpb]
          cases hfl : l.filter p with
          | nil => rw [insertSorted]
          | cons hd tl =>
            have hmem : hd ∈ l.filter p := by rw [hfl]; exact List.mem_cons_self hd tl
            have hdl : hd ∈ l := (List.mem_filter.mp hmem).1
            rw [insertSorted, if_pos (ruleBefore_trans_left hc (h1 hd hdl))]
      · conv_lhs => rw [List.filter_cons, if_neg hpx]
        conv_rhs => rw [if_neg hpx]
    · rw [insertSorted, if_neg hc]
      by_cases hpb : p b
      · conv_lhs => rw [List.filter_cons, if_pos hpb, ih h2]
        by_cases hpx : p x
        · conv_lhs => rw [if_pos hpx]
          conv_rhs => rw [if_pos hpx, List.filter_cons, if_pos hpb, insertSorted, if_neg hc]
        · conv_lhs => rw [if_neg hpx]
          conv_rhs => rw [if_neg hpx, List.filter_cons, if_pos hpb]
      · conv_lhs => rw [List.filter_cons, if_neg hpb, ih h2]
        by_cases hpx : p x
        · conv_lhs => rw [if_pos hpx]
          conv_rhs => rw [if_pos hpx, List.filter_cons, if_neg hpb]
        · conv_lhs => rw [if_neg hpx]
          conv_rhs => rw [if_neg hpx, List.filter_cons, if_neg hpb]

theorem filter_foldl_insert {tag : Option String} (p : AliasRule → Bool) :
    ∀ (l : List AliasRule) (acc : List AliasRule), SortedR tag acc →
      (l.foldl (fun a x => insertSorted (ruleBefore tag) x a) acc).filter p =
        (l.filter p).foldl (fun a x => insertSorted (ruleBefore tag) x a) (acc.filter p)
  | [], acc, _ => rfl
  | x :: l, acc, h => by
    have step := filter_foldl_insert p l (insertSorted (ruleBefore tag) x acc)
      (insertSorted_sortedR h)
    rw [List.foldl_cons, step, filter_insertSorted p h, List.filter_cons]
    by_cases hpx : p x
    · rw [if_pos hpx, if_pos hpx, List.foldl_cons]
    · rw [if_neg hpx, if_neg hpx]

/-- Filtering commutes with the stable sort of the resolver builders. -/
theorem filter_sortRules (tag : Option String) (p : AliasRule → Bool)
    (rules : List AliasRule) :
    (sortRules tag rules).filter p = sortRules tag (rules.filter p) := by
  have h := @filter_foldl_insert tag p rules [] (List.Pairwise.nil)
  simpa [sortRules, stableSort] using h

/-- Rules that are skipped or can never match are invisible to the
evaluation loop. -/
theorem evalRules_filter_inert (eng : RegexEngine) (tag : Option String)
    (input : String) (q : AliasRule → Bool)
    (hq : ∀ r, q r = true → skipRule tag r = true ∨ ruleMatches eng r input = false) :
    ∀ l : List AliasRule,
      evalRules eng tag input (l.filter (fun r => ! q r)) = evalRules eng tag input l
  | [] => rfl
  | r :: l => by
    have hstep := evalRules_filter_inert eng tag input q hq l
    by_cases hqr : q r = true
    · rcases hq r hqr with hskip | hmatch
      · simp [List.filter_cons, hqr, evalRules, hskip, hstep]
      · by_cases hsk : skipRule tag r = true
        · simp [List.filter_cons, hqr, evalRules, hsk, hstep]
        · simp [List.filter_cons, hqr, evalRules, hsk, hmatch, hstep]
    · have hqr' : q r = false := by simpa using hqr
      by_cases hsk : skipRule tag r = true
      · simp [List.filter_cons, hqr', evalRules, hsk, hstep]
      · by_cases hm : ruleMatches eng r input = true
        · simp [List.filter_cons, hqr', evalRules, hsk, hm]
        · have hm' : ruleMatches eng r input = false := by simpa using hm
          simp [List.filter_cons, hqr', evalRules, hsk, hm', hstep]

/-- Rules that are skipped, or that can never match any input, can be removed
from the rule list without changing any resolution. -/
theorem resolveAlias_filter_inert (eng : RegexEngine) (rules : List AliasRule)
    (tag : Option String) (v : CellValue) (q : AliasRule → Bool)
    (hq : ∀ r, q r = true →
      skipRule tag r = true ∨ ∀ input, ruleMatches eng r input = false) :
    resolveAlias eng rules tag v = resolveAlias eng (rules.filter (fun r => ! q r)) tag v := by
  have key : ∀ input : String,
      evalRules eng tag input (sortRules tag rules) =
        evalRules eng tag input (sortRules tag (rules.filter (fun r => ! q r))) := by
    intro input
    rw [← filter_sortRules]
    exact (evalRules_filter_inert eng tag input q
      (fun r hr => (hq r hr).imp id (fun h => h input)) (sortRules tag rules)).symm
  cases v with
  | null => rfl
  | str s => simp only [resolveAlias]; rw [key]
  | num q' => simp only [resolveAlias]; rw [key]
  | bool b => simp only [resolveAlias]; rw [key]
  | date d => simp only [resolveAlias]; rw [key]

/-! ### Resolver properties: client-scope priority (C1) and regex-failure
isolation (C7) -/

/-- A dynamic rule whose regex pattern fails to compile on the given engine. -/
def invalidRegexRule (eng : RegexEngine) (r : AliasRule) : Bool :=
  (r.match_type == MatchType.regex) && (eng r.aliasPattern r.case_sensitive).isNone

theorem invalidRegexRule_inert (eng : RegexEngine) (tag : Option String) :
    ∀ r, invalidRegexRule eng r = true →
      skipRule tag r = true ∨ ∀ input, ruleMatches eng r input = false := by
  intro r hr
  right
  intro input
  rw [invalidRegexRule, Bool.and_eq_true] at hr
  obtain ⟨h1, h2⟩ := hr
  have hmt : r.match_type = MatchType.regex := by simpa using h1
  have heng : eng r.aliasPattern r.case_sensitive = none := Option.isNone_iff_eq_none.mp h2
  simp [ruleMatches, hmt, heng]

theorem clientTier_self {c : String} {A : AliasRule} (h : A.client = some c) :
    clientTier (some c) A = 2 := by
  simp [clientTier, h]

theorem clientTier_global {B : AliasRule} (h : B.client = none) (c : String) :
    clientTier (some c) B = 0 := by
  simp [clientTier, h, clientTruthy]

/-- Core of the C1 priority property: with a rule scoped to the active client
and a global rule, in either list order, the client-scoped rule is consulted
first and wins when it matches. -/
theorem resolveAlias_pair_clientFirst (eng : RegexEngine) {A B : AliasRule} {c : String}
    {s : String} (hA : A.client = some c) (hB : B.client = none)
    (hmA : ruleMatches eng A (trimStr s) = true) (hs : trimStr s ≠ "") :
    resolveAlias eng [A, B] (some c) (.str s) = some A.canonical_name ∧
    resolveAlias eng [B, A] (some c) (.str s) = some A.canonical_name := by
  have htA : clientTier (some c) A = 2 := clientTier_self hA
  have htB : clientTier (some c) B = 0 := clientTier_global hB c
  have hBA : ruleBefore (some c) B A = false := by
    rw [ruleBefore_false_iff, htA, htB]; omega
  have hAB : ruleBefore (some c) A B = true := by
    rw [ruleBefore_iff, htA, htB]; omega
  have hskipA : skipRule (some c) A = false := by
    simp [skipRule, hA]
  have hsort1 : sortRules (some c) [A, B] = [A, B] := by
    simp [sortRules, stableSort, insertSorted, hBA]
  have hsort2 : sortRules (some c) [B, A] = [A, B] := by
    simp [sortRules, stableSort, insertSorted, hAB]
  have heval : evalRules eng (some c) (trimStr s) [A, B] = some A.canonical_name := by
    simp [evalRules, hskipA, hmA]
  constructor
  · show (if trimStr s = "" then none
      else evalRules eng (some c) (trimStr s) (sortRules (some c) [A, B])) =
        some A.canonical_name
    rw [if_neg hs, hsort1]
    exact heval
  · show (if trimStr s = "" then none
      else evalRules eng (some c) (trimStr s) (sortRules (some c) [B, A])) =
        some A.canonical_name
    rw [if_neg hs, hsort2]
    exact heval

/-- C1 (counterexample): the claim says any rule with a non-null client scope
different from the active client is excluded entirely.  A rule whose scope is
the empty string is non-null and differs from the active client `"X"`, yet it
is evaluated (it behaves as a global rule, because the skip test uses JS
truthiness `row.client && ...`) and its canonical value is returned. -/
theorem c1_clientScope_counterexample :
    (some "" : Option String) ≠ none ∧
    (some "" : Option String) ≠ some "X" ∧
    createMetricResolver noRegex
      [⟨"EMPTY SCOPE CANON", "foo", MatchType.exact, false, 5, some ""⟩]
      (some "X") (CellValue.str "foo") = some "EMPTY SCOPE CANON" := by
  exact ⟨by decide, by decide, by decide⟩

/-- C1 (amended): for the resolvers built by `createMetricResolver` and
`createIndustryResolver`, a rule scoped to the active client always beats a
global (null-scope) rule that also matches, regardless of priorities, in
either list order; and every rule whose client scope is non-null, non-empty
and different from the active client (the `skipRule` condition) is excluded
entirely from evaluation — removing all such rules never changes any result.
(The amendment restricts the exclusion to non-empty scopes: an empty-string
scope is treated as global, see the counterexample.) -/
theorem c1_clientScope_priority_amended :
    (∀ (eng : RegexEngine) (A B : AliasRule) (c : String) (s : String),
      A.client = some c → B.client = none →
      ruleMatches eng A (trimStr s) = true → ruleMatches eng B (trimStr s) = true →
      trimStr s ≠ "" →
      createMetricResolver eng [A, B] (some c) (CellValue.str s) = some A.canonical_name ∧
      createMetricResolver eng [B, A] (some c) (CellValue.str s) = some A.canonical_name ∧
      createIndustryResolver eng [A, B] (some c) (CellValue.str s) = some A.canonical_name ∧
      createIndustryResolver eng [B, A] (some c) (CellValue.str s) = some A.canonical_name) ∧
    (∀ (eng : RegexEngine) (rules : List AliasRule) (tag : Option String) (v : CellValue),
      createMetricResolver eng rules tag v =
        createMetricResolver eng (rules.filter (fun r => ! skipRule tag r)) tag v ∧
      createIndustryResolver eng rules tag v =
        createIndustryResolver eng (rules.filter (fun r => ! skipRule tag r)) tag v) := by
  constructor
  · intro eng A B c s hA hB hmA _hmB hs
    obtain ⟨h1, h2⟩ := resolveAlias_pair_clientFirst eng hA hB hmA hs
    exact ⟨h1, h2, h1, h2⟩
  · intro eng rules tag v
    have h := resolveAlias_filter_inert eng rules tag v (skipRule tag)
      (fun r hr => Or.inl hr)
    exact ⟨h, h⟩

/-- C1 (witness): concrete instantiation — a client-scoped rule with priority 0
beats a matching global rule with priority 999, in both list orders. -/
theorem c1_clientScope_priority_amended_witness :
    createMetricResolver noRegex
      [⟨"CLIENT CANON", "foo", MatchType.exact, false, 0, some "ACME"⟩,
       ⟨"GLOBAL CANON", "foo", MatchType.exact, false, 999, none⟩]
      (some "ACME") (CellValue.str " foo ") = some "CLIENT CANON" ∧
    createMetricResolver noRegex
      [⟨"GLOBAL CANON", "foo", MatchType.exact, false, 999, none⟩,
       ⟨"CLIENT CANON", "foo", MatchType.exact, false, 0, some "ACME"⟩]
      (some "ACME") (CellValue.str " foo ") = some "CLIENT CANON" := by
  have h := c1_clientScope_priority_amended.1 noRegex
    ⟨"CLIENT CANON", "foo", MatchType.exact, false, 0, some "ACME"⟩
    ⟨"GLOBAL CANON", "foo", MatchType.exact, false, 999, none⟩
    "ACME" " foo " rfl rfl (by decide) (by decide) (by decide)
  exact ⟨h.1, h.2.1⟩

/-- C7: an alias rule whose regex pattern fails to compile is skipped
(treated as non-matching) for every evaluation: removing all such rules from
the rule list never changes any resolution, for either resolver builder; and
for a list made of one invalid-regex rule and one valid rule that matches the
(nonempty, trimmed) input, the resolver returns the valid rule's canonical
value in either order.  No exception escapes: the resolver is a total
function into `Option String` by construction. -/
theorem c7_invalid_regex_isolation :
    (∀ (eng : RegexEngine) (rules : List AliasRule) (tag : Option String) (v : CellValue),
      createMetricResolver eng rules tag v =
        createMetricResolver eng (rules.filter (fun r => ! invalidRegexRule eng r)) tag v ∧
      createIndustryResolver eng rules tag v =
        createIndustryResolver eng (rules.filter (fun r => ! invalidRegexRule eng r)) tag v) ∧
    (∀ (eng : RegexEngine) (bad good : AliasRule) (tag : Option String) (s : String),
      invalidRegexRule eng bad = true →
      skipRule tag good = false →
      ruleMatches eng good (trimStr s) = true →
      trimStr s ≠ "" →
      createMetricResolver eng [bad, good] tag (CellValue.str s) = some good.canonical_name ∧
      createMetricResolver eng [good, bad] tag (CellValue.str s) = some good.canonical_name) := by
  constructor
  · intro eng rules tag v
    have h := resolveAlias_filter_inert eng rules tag v (invalidRegexRule eng)
      (invalidRegexRule_inert eng tag)
    exact ⟨h, h⟩
  · intro eng bad good tag s hbad hskip hmatch hs
    have hgood : invalidRegexRule eng good = false := by
      rw [Bool.eq_false_iff]
      intro hg
      rcases invalidRegexRule_inert eng tag good hg with hsk | hnm
      · rw [hskip] at hsk; exact Bool.false_ne_true hsk
      · rw [hnm (trimStr s)] at hmatch; exact Bool.false_ne_true hmatch
    have hsingle : resolveAlias eng [good] tag (CellValue.str s) = some good.canonical_name := by
      show (if trimStr s = "" then none
        else evalRules eng tag (trimStr s) (sortRules tag [good])) = some good.canonical_name
      rw [if_neg hs]
      simp [sortRules, stableSort, insertSorted, evalRules, hskip, hmatch]
    have hf1 : [bad, good].filter (fun r => ! invalidRegexRule eng r) = [good] := by
      simp [List.filter_cons, hbad, hgood]
    have hf2 : [good, bad].filter (fun r => ! invalidRegexRule eng r) = [good] := by
      simp [List.filter_cons, hbad, hgood]
    constructor
    · have heq := resolveAlias_filter_inert eng [bad, good] tag (CellValue.str s)
        (invalidRegexRule eng) (invalidRegexRule_inert eng tag)
      rw [createMetricResolver, heq, hf1]
      exact hsingle
    · have heq := resolveAlias_filter_inert eng [good, bad] tag (CellValue.str s)
        (invalidRegexRule eng) (invalidRegexRule_inert eng tag)
      rw [createMetricResolver, heq, hf2]
      exact hsingle

/-- C7 (witness): a rule list with one invalid regex pattern and one valid
matching rule still resolves to the valid rule's canonical value. -/
theorem c7_invalid_regex_isolation_witness :
    createMetricResolver
      (fun p _ => if p = "(" then none else some (fun t => strIncludes t p))
      [⟨"BAD", "(", MatchType.regex, false, 100, none⟩,
       ⟨"GOOD", "handle", MatchType.contains, false, 1, none⟩]
      none (CellValue.str "Avg Handle Time") = some "GOOD" ∧
    createMetricResolver
      (fun p _ => if p = "(" then none else some (fun t => strIncludes t p))
      [⟨"GOOD", "handle", MatchType.contains, false, 1, none⟩,
       ⟨"BAD", "(", MatchType.regex, false, 100, none⟩]
      none (CellValue.str "Avg Handle Time") = some "GOOD" := by
  have h := c7_invalid_regex_isolation.2
    (fun p _ => if p = "(" then none else some (fun t => strIncludes t p))
    ⟨"BAD", "(", MatchType.regex, false, 100, none⟩
    ⟨"GOOD", "handle", MatchType.contains, false, 1, none⟩
    none "Avg Handle Time" (by decide) (by decide) (by decide) (by decide)
  exact ⟨h.1, h.2⟩

/-! ## Period parsing (`parseMonthYear` and helpers in the workbook parser) -/

/-- The `MONTHS` table: three-letter code and accepted lower-case aliases. -/
def MONTHS : List (String × List String) :=
  [("Jan", ["jan", "january"]),
   ("Feb", ["feb", "february"]),
   ("Mar", ["mar", "march"]),
   ("Apr", ["apr", "april"]),
   ("May", ["may"]),
   ("Jun", ["jun", "june"]),
   ("Jul", ["jul", "july"]),
   ("Aug", ["aug", "august"]),
   ("Sep", ["sep", "sept", "september"]),
   ("Oct", ["oct", "october"]),
   ("Nov", ["nov", "november"]),
   ("Dec", ["dec", "december"])]

/-- The `monthLookup` dictionary flattened in construction order: every alias
and the lower-cased short code map to `(index, short)`.  (All keys are
distinct, so first-match association lookup equals the JS object.) -/
def monthLookupTable : List (String × Nat × String) :=
  MONTHS.enum.flatMap (fun e =>
    (e.2.2.map (fun a => (a, e.1, e.2.1))) ++ [(lowerStr e.2.1, e.1, e.2.1)])

/-- `monthLookup[key]`. -/
def monthLookup (key : String) : Option (Nat × String) :=
  (monthLookupTable.find? (fun e => e.1 == key)).map (fun e => e.2)

/-- `MONTHS[i].short` (total; the out-of-range case cannot occur). -/
def monthShortAt (i : Nat) : String := ((MONTHS.map (fun e => e.1)).getD i "")

/-- Gregorian civil date from a day count relative to 1970-01-01 UTC
(`getUTCFullYear` / `getUTCMonth` / `getUTCDate` of a UTC-midnight date).
Returns `(year, month (1-based), day)`.  Floor division is used directly
where C ports adjust truncating division. -/
def civilFromDays (z : Int) : Int × Nat × Nat :=
  let z' := z + 719468
  let era := Int.fdiv z' 146097
  let doe := (z' - era * 146097).toNat
  let yoe := (doe - doe / 1460 + doe / 36524 - doe / 146096) / 365
  let y : Int := (yoe : Int) + era * 400
  let doy := doe - (365 * yoe + yoe / 4 - yoe / 100)
  let mp := (5 * doy + 2) / 153
  let d := doy - (153 * mp + 2) / 5 + 1
  let m := if mp < 10 then mp + 3 else mp - 9
  (y + (if m ≤ 2 then 1 else 0), m, d)

/-- Day count relative to 1970-01-01 UTC of a civil date (month 1-based). -/
def daysFromCivil (y : Int) (m : Nat) (d : Nat) : Int :=
  let y' := y - (if m ≤ 2 then 1 else 0)
  let era := Int.fdiv y' 400
  let yoe := (y' - era * 400).toNat
  let mp := if 2 < m then m - 3 else m + 9
  let doy := (153 * mp + 2) / 5 + d - 1
  let doe := yoe * 365 + yoe / 4 - yoe / 100 + doy
  era * 146097 + (doe : Int) - 719468

/-- `excelSerialToDate` composed with UTC month/year extraction: the serial
counts days from the 1899-12-30 epoch (day -25569 of the Unix epoch); a
fractional serial lands inside the day, so the UTC date is its floor.
Returns `(0-based month, year)`. -/
def excelSerialYearMonth (q : ℚ) : Nat × Int :=
  let days := ⌊q⌋ - 25569
  let c := civilFromDays days
  (c.2.1 - 1, c.1)

/-- `coerceString` from the workbook parser: strings are whitespace-collapsed
and trimmed (`null` for empty), dates render as ISO strings, other values are
stringified then normalized. -/
def coerceString (v : CellValue) : Option String :=
  match v with
  | .null => none
  | .str s =>
    let t := normalizeWhitespace s
    if t = "" then none else some t
  | .date d => some (isoString d)
  | v =>
    let t := normalizeWhitespace (cellToString v)
    if t = "" then none else some t

/-- Alternatives of the month regex
`(jan(uary)?|feb(ruary)?|...|sep(t)?(ember)?|...|dec(ember)?)`:
a mandatory prefix followed by greedy optional literal groups. -/
def monthAlts : List (String × List String) :=
  [("jan", ["uary"]), ("feb", ["ruary"]), ("mar", ["ch"]), ("apr", ["il"]),
   ("may", []), ("jun", ["e"]), ("jul", ["y"]), ("aug", ["ust"]),
   ("sep", ["t", "ember"]), ("oct", ["ober"]), ("nov", ["ember"]),
   ("dec", ["ember"])]

/-- Match one alternative at the head of `cs`: consume the mandatory prefix,
then each optional group greedily in order; return the matched text. -/
def matchPiece (cs : List Char) (pre : String) (opts : List String) :
    Option (List Char) :=
  match dropPfx cs pre.data with
  | none => none
  | some rest =>
    let step := opts.foldl
      (fun (acc : List Char × List Char) o =>
        match dropPfx acc.2 o.data with
        | some r => (acc.1 ++ o.data, r)
        | none => acc)
      ([], rest)
    some (pre.data ++ step.1)

/-- Try the month alternatives in regex order at the current position. -/
def monthAltMatch (cs : List Char) : Option (List Char) :=
  monthAlts.findSome? (fun e => matchPiece cs e.1 e.2)

/-- Leftmost-match scan of an unanchored regex: try each position from the
left, first success wins. -/
def scanFirst (f : List Char → Option (List Char)) : List Char → Option (List Char)
  | [] => f []
  | c :: rest =>
    match f (c :: rest) with
    | some m => some m
    | none => scanFirst f rest

/-- `rawString.toLowerCase().match(/(jan(uary)?|...)/)`, the matched text. -/
def findMonthMatch (s : String) : Option String :=
  (scanFirst monthAltMatch s.data).map String.mk

/-- First alternative of the year regex: `20\d{2}`. -/
def yearTry20 : List Char → Option (List Char)
  | '2' :: '0' :: c :: d :: _ => if c.isDigit && d.isDigit then some ['2', '0', c, d] else none
  | _ => none

/-- Second alternative of the year regex: `19\d{2}`. -/
def yearTry19 : List Char → Option (List Char)
  | '1' :: '9' :: c :: d :: _ => if c.isDigit && d.isDigit then some ['1', '9', c, d] else none
  | _ => none

/-- Third alternative of the year regex: `\d{2}`. -/
def yearTry2d : List Char → Option (List Char)
  | c :: d :: _ => if c.isDigit && d.isDigit then some [c, d] else none
  | _ => none

/-- The alternation `(20\d{2}|19\d{2}|\d{2})` at one position. -/
def yearAltMatch (cs : List Char) : Option (List Char) :=
  match yearTry20 cs with
  | some m => some m
  | none =>
    match yearTry19 cs with
    | some m => some m
    | none => yearTry2d cs

/-- `rawString.match(/(20\d{2}|19\d{2}|\d{2})/)`, the matched text. -/
def findYearMatch (s : String) : Option String :=
  (scanFirst yearAltMatch s.data).map String.mk

/-- Numeric value of a digit string (`Number(yearMatch[0])` on digits). -/
def natOfDigits (l : List Char) : Nat :=
  l.foldl (fun a c => a * 10 + (c.toNat - 48)) 0

/-- `parseMonthYear`: a finite number is an Excel day serial; a date gives its
UTC month and year; anything else is stringified and searched for a month
name and a 2- or 4-digit year token, with 2-digit years windowed to the
2000s.  Always returns the nullable pair, never throws. -/
def parseMonthYear (input : CellValue) : Option String × Option Int :=
  match input with
  | .num q =>
    let my := excelSerialYearMonth q
    (some (monthShortAt my.1), some my.2)
  | .date d =>
    (some (monthShortAt d.month0.val), some d.year)
  | input =>
    match coerceString input with
    | none => (none, none)
    | some rawString =>
      match findMonthMatch (lowerStr rawString), findYearMatch rawString with
      | some m, some y =>
        match monthLookup m with
        | none => (none, none)
        | some lk =>
          let parsedYear := natOfDigits y.data
          (some lk.2,
            some (if parsedYear < 100 then (parsedYear : Int) + 2000 else (parsedYear : Int)))
      | _, _ => (none, none)

/-- `isMonthOldEnough`: the end of the month must be at least 9 whole UTC days
in the past.  `todayDays` is `startOfDayUTC(today)` in day units. -/
def isMonthOldEnough (month : String) (year : Int) (todayDays : Int) : Bool :=
  match monthLookup (lowerStr month) with
  | none => false
  | some lk =>
    let mm := lk.1 + 1
    let norm := if 12 ≤ mm then (year + 1, mm - 12) else (year, mm)
    let lastDay := daysFromCivil norm.1 (norm.2 + 1) 1 - 1
    decide (9 ≤ todayDays - lastDay)

/-! ## Tolerant numeric coercion (`toNumber`) -/

/-- `.replace(/[,%]/g, '')`. -/
def stripCommaPct (s : String) : String :=
  String.mk (s.data.filter (fun c => !(c = ',' || c = '%')))

/-- Consume leading decimal digits, returning `(value, digit count, rest)`. -/
def parseDigitsAux : List Char → Nat → Nat → Nat × Nat × List Char
  | c :: rest, acc, cnt =>
    if c.isDigit then parseDigitsAux rest (acc * 10 + (c.toNat - 48)) (cnt + 1)
    else (acc, cnt, c :: rest)
  | [], acc, cnt => (acc, cnt, [])

/-- JS `Number(string)` restricted to the decimal forms this pipeline
produces: optional sign, integer digits, optional fraction.  The empty (and
all-whitespace) string is 0; anything else (including exponent or hex forms,
which the cleaned cell strings never contain) is NaN, modelled as `none`. -/
def jsParseNumber (s : String) : Option ℚ :=
  let t := trimCharsL s.data
  if t = [] then some 0
  else
    let st :=
      match t with
      | '-' :: r => ((-1 : ℚ), r)
      | '+' :: r => ((1 : ℚ), r)
      | r => ((1 : ℚ), r)
    let ip := parseDigitsAux st.2 0 0
    match ip.2.2 with
    | [] => if ip.2.1 = 0 then none else some (st.1 * (ip.1 : ℚ))
    | '.' :: t3 =>
      let fp := parseDigitsAux t3 0 0
      if fp.2.2 = [] ∧ 0 < ip.2.1 + fp.2.1 then
        some (st.1 * ((ip.1 : ℚ) + (fp.1 : ℚ) / ((10 : ℚ) ^ fp.2.1)))
      else none
    | _ => none

/-- `toNumber`: tolerant numeric coercion — `null`/`''` give `null`, finite
numbers pass through, strings are normalized, stripped of `,` and `%`, then
parsed; unparsable input gives `null`, never an exception. -/
def toNumber (v : CellValue) : Option ℚ :=
  match v with
  | .null => none
  | .str "" => none
  | .num q => some q
  | v =>
    match coerceString v with
    | none => none
    | some s => jsParseNumber (stripCommaPct s)

/-! ### C6: the period parser on string inputs -/

/-- C6: for every string input, the parser searches the lower-cased,
whitespace-normalized input for a month name or abbreviation (including
`sept`) and for a 2- or 4-digit year token; if stringification or either
search fails, the result is `(null, null)` — no exception (the function is
total by construction); a 2-digit year is windowed to the 2000s by adding
2000; in particular `"Jun-25"` parses to `(Jun, 2025)` and `"Sept 2024"` to
`(Sep, 2024)`. -/
theorem c6_parseMonthYear_string_spec :
    (∀ s : String, coerceString (CellValue.str s) = none →
      parseMonthYear (CellValue.str s) = (none, none)) ∧
    (∀ s t : String, coerceString (CellValue.str s) = some t →
      (findMonthMatch (lowerStr t) = none ∨ findYearMatch t = none) →
      parseMonthYear (CellValue.str s) = (none, none)) ∧
    (∀ (s t m y : String) (lk : Nat × String),
      coerceString (CellValue.str s) = some t →
      findMonthMatch (lowerStr t) = some m →
      findYearMatch t = some y →
      monthLookup m = some lk →
      natOfDigits y.data < 100 →
      parseMonthYear (CellValue.str s) = (some lk.2, some ((natOfDigits y.data : Int) + 2000))) ∧
    parseMonthYear (CellValue.str "Jun-25") = (some "Jun", some 2025) ∧
    parseMonthYear (CellValue.str "Sept 2024") = (some "Sep", some 2024) := by
  refine ⟨?_, ?_, ?_, ?_, ?_⟩
  · intro s h
    simp [parseMonthYear, h]
  · intro s t h hor
    cases hfm : findMonthMatch (lowerStr t) with
    | none => simp [parseMonthYear, h, hfm]
    | some m =>
      rcases hor with hm | hy
      · rw [hfm] at hm; exact absurd hm (by simp)
      · simp [parseMonthYear, h, hfm, hy]
  · intro s t m y lk h hm hy hlk hlt
    simp [parseMonthYear, h, hm, hy, hlk, hlt]
  · decide
  · decide

/-- C6 (witness): the general clauses instantiated at `"Jun-25"` (month
`jun`, 2-digit year `25` windowed to 2025) and at a string with no period. -/
theorem c6_parseMonthYear_string_spec_witness :
    parseMonthYear (CellValue.str "Jun-25") = (some "Jun", some 2025) ∧
    parseMonthYear (CellValue.str "no period in sight") = (none, none) := by
  constructor
  · have h := c6_parseMonthYear_string_spec.2.2.1 "Jun-25" "Jun-25" "jun" "25" (5, "Jun")
      (by decide) (by decide) (by decide) (by decide) (by decide)
    simpa using h
  · exact c6_parseMonthYear_string_spec.2.1 "no period in sight" "no period in sight"
      (by decide) (Or.inl (by decide))

/-! ## Static mapping tables (`amplifaiMappings.ts`, `ORG_ALIASES`,
`INDUSTRY_MAPPINGS`) -/

/-- First-match lookup in an association table (a JS object literal whose
values are all non-empty, so truthiness of the looked-up value equals key
presence). -/
def assocLookup (table : List (String × String)) (key : String) : Option String :=
  (table.find? (fun e => e.1 == key)).map (fun e => e.2)

/-- `ORG_ALIASES` of the workbook parser, in declaration order. -/
def ORG_ALIASES : List (String × String) :=
  [("united health care", "UHC"), ("united healthcare", "UHC"),
   ("united health group", "UHC"), ("unitedhealthcare", "UHC"),
   ("unitedhealth", "UHC"), ("uhc", "UHC"), ("uhg", "UHC"),
   ("optum", "OPTUM UBH"), ("optum ubh", "OPTUM UBH"),
   ("optum behavioral", "OPTUM UBH"),
   ("at&t", "ATT MEXICO"), ("att", "ATT MEXICO"), ("at&t mexico", "ATT MEXICO"),
   ("t-mobile", "T-MOBILE"), ("tmobile", "T-MOBILE"), ("t mobile", "T-MOBILE"),
   ("sirius", "SIRIUS XM RADIO"), ("siriusxm", "SIRIUS XM RADIO"),
   ("sirius xm", "SIRIUS XM RADIO"),
   ("blue shield", "BSC"), ("blue shield of california", "BSC"), ("bsc", "BSC"),
   ("sams club", "SAMS CLUB"), ("sam\x27s club", "SAMS CLUB"),
   ("macys", "MACYS"), ("macy\x27s", "MACYS"),
   ("keurig", "KEURIG DR PEPPER"), ("dr pepper", "KEURIG DR PEPPER"),
   ("keurig dr. pepper", "KEURIG DR PEPPER"),
   ("mercedes", "MERCEDES BENZ"), ("mercedes-benz", "MERCEDES BENZ"),
   ("delta", "DELTA AIR LINES"), ("delta airlines", "DELTA AIR LINES"),
   ("extended stay", "EXTENDED STAY AMERICA"),
   ("extended stay america", "EXTENDED STAY AMERICA"),
   ("liberty", "LIBERTY MUTUAL"),
   ("pitney", "PITNEY BOWES"),
   ("american eagle", "AMERICAN EAGLE OUTFITTERS"),
   ("aeo", "AMERICAN EAGLE OUTFITTERS"),
   ("coca cola", "COCA COLA"), ("coca-cola", "COCA COLA"), ("coke", "COCA COLA"),
   ("energy aus", "ENERGY AUSTRALIA"), ("energyaustralia", "ENERGY AUSTRALIA"),
   ("nomad", "NOMAD INTERNET"),
   ("remodel", "REMODEL HEALTH"),
   ("tripadvisor", "TRIPADVISOR"), ("trip advisor", "TRIPADVISOR"),
   ("vantive", "VANTIVE HEALTH")]

/-- `toAmplifaiOrg`: null/blank gives null; else case-insensitive exact alias
lookup, then first declaration-order alias contained in the input, else the
uppercased, whitespace-collapsed input. -/
def toAmplifaiOrg (v : CellValue) : Option String :=
  match v with
  | .null => none
  | v =>
    let str := trimStr (cellToString v)
    if str = "" then none
    else
      let lowerS := lowerStr str
      match assocLookup ORG_ALIASES lowerS with
      | some canonical => some canonical
      | none =>
        match ORG_ALIASES.find? (fun e => strIncludes lowerS e.1) with
        | some e => some e.2
        | none => some (collapseWs (upperStr str))

/-- `INDUSTRY_MAPPINGS` of the industry resolver, in declaration order. -/
def INDUSTRY_MAPPINGS : List (String × String) :=
  [("uhc", "HEALTHCARE"), ("united health", "HEALTHCARE"),
   ("unitedhealthcare", "HEALTHCARE"), ("optum", "HEALTHCARE"),
   ("blue shield", "HEALTHCARE"), ("bsc", "HEALTHCARE"),
   ("anthem", "HEALTHCARE"), ("cigna", "HEALTHCARE"), ("humana", "HEALTHCARE"),
   ("kaiser", "HEALTHCARE"), ("aetna", "HEALTHCARE"), ("vantive", "HEALTHCARE"),
   ("remodel health", "HEALTHCARE"),
   ("at&t", "TELECOMMUNICATIONS"), ("att", "TELECOMMUNICATIONS"),
   ("t-mobile", "TELECOMMUNICATIONS"), ("tmobile", "TELECOMMUNICATIONS"),
   ("verizon", "TELECOMMUNICATIONS"), ("sprint", "TELECOMMUNICATIONS"),
   ("sirius", "TELECOMMUNICATIONS"), ("siriusxm", "TELECOMMUNICATIONS"),
   ("nomad internet", "TELECOMMUNICATIONS"),
   ("sams club", "RETAIL"), ("sam\x27s club", "RETAIL"), ("walmart", "RETAIL"),
   ("macys", "RETAIL"), ("macy\x27s", "RETAIL"), ("american eagle", "RETAIL"),
   ("aeo", "RETAIL"), ("target", "RETAIL"), ("costco", "RETAIL"),
   ("coca cola", "FOOD & BEVERAGE"), ("coca-cola", "FOOD & BEVERAGE"),
   ("coke", "FOOD & BEVERAGE"), ("keurig", "FOOD & BEVERAGE"),
   ("dr pepper", "FOOD & BEVERAGE"), ("pepsi", "FOOD & BEVERAGE"),
   ("mercedes", "AUTOMOTIVE"), ("mercedes-benz", "AUTOMOTIVE"),
   ("ford", "AUTOMOTIVE"), ("gm", "AUTOMOTIVE"), ("toyota", "AUTOMOTIVE"),
   ("honda", "AUTOMOTIVE"),
   ("delta", "TRAVEL & HOSPITALITY"), ("delta airlines", "TRAVEL & HOSPITALITY"),
   ("extended stay", "TRAVEL & HOSPITALITY"), ("esa", "TRAVEL & HOSPITALITY"),
   ("marriott", "TRAVEL & HOSPITALITY"), ("hilton", "TRAVEL & HOSPITALITY"),
   ("tripadvisor", "TRAVEL & HOSPITALITY"),
   ("liberty mutual", "FINANCIAL SERVICES"), ("liberty", "FINANCIAL SERVICES"),
   ("allstate", "FINANCIAL SERVICES"), ("geico", "FINANCIAL SERVICES"),
   ("progressive", "FINANCIAL SERVICES"), ("state farm", "FINANCIAL SERVICES"),
   ("pitney bowes", "TECHNOLOGY"), ("pitney", "TECHNOLOGY"),
   ("microsoft", "TECHNOLOGY"), ("apple", "TECHNOLOGY"), ("google", "TECHNOLOGY"),
   ("energy australia", "UTILITIES"), ("energyaustralia", "UTILITIES")]

/-- `deriveIndustryFromOrg`: null/blank gives null; case-insensitive exact
lookup, then first declaration-order key contained in the organization name;
null when nothing matches. -/
def deriveIndustryFromOrg (v : CellValue) : Option String :=
  match v with
  | .null => none
  | v =>
    let str := trimStr (cellToString v)
    if str = "" then none
    else
      let lowerS := lowerStr str
      match assocLookup INDUSTRY_MAPPINGS lowerS with
      | some ind => some ind
      | none =>
        match INDUSTRY_MAPPINGS.find? (fun e => strIncludes lowerS e.1) with
        | some e => some e.2
        | none => none

/-! ### The metric regex families of `amplifaiMappings.ts`

Each hard-coded `RegExp` literal is translated into an executable matcher on
the lower-cased character list (all patterns carry the `i` flag); `\s*` and
`\s+` are greedy, which is faithful here because every following literal
starts with a non-whitespace character. -/

/-- JS `\w`. -/
def isWordChar (c : Char) : Bool := c.isAlphanum || c = '_'

/-- Consume leading whitespace (`\s*`, greedy). -/
def dropWsL (cs : List Char) : List Char := cs.dropWhile isWs

/-- Anchored `a\s*b` at the head; returns the rest after `b`. -/
def seqLitWs (a b : String) (cs : List Char) : Option (List Char) :=
  match dropPfx cs a.data with
  | none => none
  | some r => dropPfx (dropWsL r) b.data

/-- Unanchored search for `a\s*b`. -/
def searchLitWsLit (a b : String) (s : String) : Bool :=
  (scanFirst (fun cs => (seqLitWs a b cs).map (fun _ => [])) s.data).isSome

/-- Anchored-to-end `a\s*b$`. -/
def litWsLitEnd (a b : String) (cs : List Char) : Bool :=
  match seqLitWs a b cs with
  | some [] => true
  | _ => false

/-- A word-boundary hit of the pattern at the current position
(`\b pat \b`): the previous character (if any) and the character following
the match (if any) are non-word characters. -/
def wordBoundaryHit (pat : List Char) (prev : Option Char) (cs : List Char) : Bool :=
  (match prev with
   | none => true
   | some p => !isWordChar p) &&
  (match dropPfx cs pat with
   | some [] => true
   | some (c :: _) => !isWordChar c
   | none => false)

/-- Scan for a word-boundary match of the pattern. -/
def wordBoundarySearchAux (pat : List Char) (prev : Option Char) : List Char → Bool
  | [] => wordBoundaryHit pat prev []
  | c :: rest => wordBoundaryHit pat prev (c :: rest) || wordBoundarySearchAux pat (some c) rest

/-- Unanchored `\b pat \b` search. -/
def wordBoundarySearch (pat : String) (s : String) : Bool :=
  wordBoundarySearchAux pat.data none s.data

/-- `/nps/i`. -/
def patNps (v : String) : Bool := strIncludes (lowerStr v) "nps"

/-- `/net\s*promoter/i`. -/
def patNetPromoter (v : String) : Bool := searchLitWsLit "net" "promoter" (lowerStr v)

/-- `/release\s*rate/i`. -/
def patReleaseRate (v : String) : Bool := searchLitWsLit "release" "rate" (lowerStr v)

/-- `/^release$/i`. -/
def patReleaseExact (v : String) : Bool := lowerStr v == "release"

/-- `/\battrition\b/i`. -/
def patAttrition (v : String) : Bool := wordBoundarySearch "attrition" (lowerStr v)

/-- `/^aht$/i`. -/
def patAhtExact (v : String) : Bool := lowerStr v == "aht"

/-- The alternation of `/^aht\s+(after\s*call|calls|...|voice)$/i` applied to
the text after `aht\s+`. -/
def ahtSuffixAlt (cs : List Char) : Bool :=
  litWsLitEnd "after" "call" cs || cs == "calls".data || cs == "chat".data ||
  cs == "combined".data || cs == "ecomm".data || cs == "email".data ||
  cs == "emails".data || cs == "goal".data || cs == "hd".data ||
  cs == "leader".data || cs == "lobs".data || litWsLitEnd "on" "call" cs ||
  cs == "pams".data || cs == "phone".data || cs == "prep".data ||
  cs == "sales".data || cs == "service".data || cs == "some".data ||
  cs == "spanish".data || cs == "tickets".data || litWsLitEnd "to" "goal" cs ||
  cs == "voice".data

/-- `/^aht\s+(...)$/i`. -/
def patAhtQualified (v : String) : Bool :=
  match dropPfx (lowerStr v).data "aht".data with
  | some (c :: rest) => isWs c && ahtSuffixAlt (dropWsL rest)
  | _ => false

/-- `\s*handle\s*time` continuation (unanchored tail). -/
def handleTimeTail (r : List Char) : Bool :=
  match dropPfx (dropWsL r) "handle".data with
  | some r2 => (dropPfx (dropWsL r2) "time".data).isSome
  | none => false

/-- `/^(ave|average)\s*handle\s*time/i`. -/
def patAveHandleTime (v : String) : Bool :=
  (match dropPfx (lowerStr v).data "ave".data with
   | some r => handleTimeTail r
   | none => false) ||
  (match dropPfx (lowerStr v).data "average".data with
   | some r => handleTimeTail r
   | none => false)

/-- `/^(chat|phone|ticket|combined|total|ib|opc|rpc|tx|inbound)\s*aht/i`. -/
def patPrefixedAht (v : String) : Bool :=
  ["chat", "phone", "ticket", "combined", "total", "ib", "opc", "rpc", "tx",
   "inbound"].any (fun p =>
    match dropPfx (lowerStr v).data p.data with
    | some r => (dropPfx (dropWsL r) "aht".data).isSome
    | none => false)

/-- `/^handle\s*time\s*\(fa\)$/i`. -/
def patHandleTimeFa (v : String) : Bool :=
  match dropPfx (lowerStr v).data "handle".data with
  | some r =>
    (match dropPfx (dropWsL r) "time".data with
     | some r2 => litWsLitEnd "" "(fa)" r2
     | none => false)
  | none => false

/-- `/^chat\s*handle\s*time/i`. -/
def patChatHandleTime (v : String) : Bool :=
  match dropPfx (lowerStr v).data "chat".data with
  | some r => handleTimeTail r
  | none => false

/-- `/^attendance/i`. -/
def patAttendance (v : String) : Bool :=
  (dropPfx (lowerStr v).data "attendance".data).isSome

/-- `/^reliability$/i`. -/
def patReliability (v : String) : Bool := lowerStr v == "reliability"

/-- `/^schedule\s*reliability/i`. -/
def patScheduleReliability (v : String) : Bool :=
  match dropPfx (lowerStr v).data "schedule".data with
  | some r => (dropPfx (dropWsL r) "reliability".data).isSome
  | none => false

/-- `/^absenteeism/i`. -/
def patAbsenteeism (v : String) : Bool :=
  (dropPfx (lowerStr v).data "absenteeism".data).isSome

/-- `/^unplanned\s*absenteeism/i`. -/
def patUnplannedAbsenteeism (v : String) : Bool :=
  match dropPfx (lowerStr v).data "unplanned".data with
  | some r => (dropPfx (dropWsL r) "absenteeism".data).isSome
  | none => false

/-- `METRIC_MAPPINGS`: canonical names with their pattern lists, in
declaration order. -/
def METRIC_MAPPINGS : List (String × List (String → Bool)) :=
  [("NPS", [patNps, patNetPromoter]),
   ("RELEASE RATE", [patReleaseRate, patReleaseExact, patAttrition]),
   ("AHT", [patAhtExact, patAhtQualified, patAveHandleTime, patPrefixedAht,
            patHandleTimeFa, patChatHandleTime]),
   ("ATTENDANCE", [patAttendance, patReliability, patScheduleReliability,
                   patAbsenteeism, patUnplannedAbsenteeism])]

/-- `matchAgainstMappings`: the first mapping (in declaration order) one of
whose patterns matches wins; falsy input gives null. -/
def matchAgainstMappings (value : String)
    (mappings : List (String × List (String → Bool))) : Option String :=
  if value = "" then none
  else mappings.findSome? (fun e => if e.2.any (fun p => p value) then some e.1 else none)

/-- `coerceToString` of `amplifaiMappings.ts` (no special date branch). -/
def coerceToString (v : CellValue) : Option String :=
  match v with
  | .null => none
  | .str s =>
    let t := normalizeWhitespace s
    if t = "" then none else some t
  | v =>
    let t := normalizeWhitespace (cellToString v)
    if t = "" then none else some t

/-- `deriveAmplifaiMetric`: normalize, try the metric pattern families, else
default to the uppercased normalized input. -/
def deriveAmplifaiMetric (v : CellValue) : Option String :=
  match coerceToString v with
  | none => none
  | some normalized =>
    match matchAgainstMappings normalized METRIC_MAPPINGS with
    | some m => some m
    | none => some (upperStr normalized)

/-! ## Composition with the injected DB resolvers
(`toAmplifaiMetric` / `toAmplifaiIndustry` in the workbook parser; the
module-global injected resolver is passed explicitly). -/

/-- `toAmplifaiMetric`: a *truthy* dynamic result wins; otherwise the static
fallback. -/
def toAmplifaiMetric (dbRes : Option (CellValue → Option String))
    (v : CellValue) : Option String :=
  match dbRes with
  | some resolver =>
    match resolver v with
    | some s => if s = "" then deriveAmplifaiMetric v else some s
    | none => deriveAmplifaiMetric v
  | none => deriveAmplifaiMetric v

/-- `toAmplifaiIndustry`: a *truthy* dynamic result wins; otherwise the
static fallback. -/
def toAmplifaiIndustry (dbRes : Option (CellValue → Option String))
    (v : CellValue) : Option String :=
  match dbRes with
  | some resolver =>
    match resolver v with
    | some s => if s = "" then deriveIndustryFromOrg v else some s
    | none => deriveIndustryFromOrg v
  | none => deriveIndustryFromOrg v

/-! ### C3: dynamic resolver precedence over static fallback -/

/-- C3 (counterexample): the claim says a *non-null* dynamic result is always
final and the static fallback is consulted iff the resolver is absent or
returns null.  A resolver built from a rule whose canonical value is the
empty string returns `some ""` — non-null — on `"Zebra"`, yet the composition
falls through to the static fallback (JS truthiness `if (dbResult)`), which
returns `"ZEBRA"`. -/
theorem c3_empty_canonical_counterexample :
    createMetricResolver noRegex [⟨"", "zebra", MatchType.contains, false, 100, none⟩]
      none (CellValue.str "Zebra") = some "" ∧
    (some "" : Option String) ≠ none ∧
    toAmplifaiMetric
      (some (createMetricResolver noRegex
        [⟨"", "zebra", MatchType.contains, false, 100, none⟩] none))
      (CellValue.str "Zebra") = some "ZEBRA" ∧
    (some "ZEBRA" : Option String) ≠ some "" := by
  exact ⟨by decide, by decide, by decide, by decide⟩

/-- C3 (amended): for every raw value, if the injected dynamic resolver
returns a non-null, *non-empty* canonical value, that value is the final
result; the static fallback is consulted exactly when the resolver is
absent, returns null, or returns the empty string — for both the metric and
the industry composition. -/
theorem c3_dynamic_precedence_amended :
    (∀ (db : Option (CellValue → Option String)) (v : CellValue),
      (∀ f s, db = some f → f v = some s → s ≠ "" → toAmplifaiMetric db v = some s) ∧
      (db = none → toAmplifaiMetric db v = deriveAmplifaiMetric v) ∧
      (∀ f, db = some f → f v = none → toAmplifaiMetric db v = deriveAmplifaiMetric v) ∧
      (∀ f, db = some f → f v = some "" → toAmplifaiMetric db v = deriveAmplifaiMetric v)) ∧
    (∀ (db : Option (CellValue → Option String)) (v : CellValue),
      (∀ f s, db = some f → f v = some s → s ≠ "" → toAmplifaiIndustry db v = some s) ∧
      (db = none → toAmplifaiIndustry db v = deriveIndustryFromOrg v) ∧
      (∀ f, db = some f → f v = none → toAmplifaiIndustry db v = deriveIndustryFromOrg v) ∧
      (∀ f, db = some f → f v = some "" → toAmplifaiIndustry db v = deriveIndustryFromOrg v)) := by
  constructor
  · intro db v
    refine ⟨?_, ?_, ?_, ?_⟩
    · intro f s hdb hf hs
      subst hdb
      simp [toAmplifaiMetric, hf, hs]
    · intro hdb
      subst hdb
      rfl
    · intro f hdb hf
      subst hdb
      simp [toAmplifaiMetric, hf]
    · intro f hdb hf
      subst hdb
      simp [toAmplifaiMetric, hf]
  · intro db v
    refine ⟨?_, ?_, ?_, ?_⟩
    · intro f s hdb hf hs
      subst hdb
      simp [toAmplifaiIndustry, hf, hs]
    · intro hdb
      subst hdb
      rfl
    · intro f hdb hf
      subst hdb
      simp [toAmplifaiIndustry, hf]
    · intro f hdb hf
      subst hdb
      simp [toAmplifaiIndustry, hf]

/-- C3 (witness): a dynamic resolver returning the non-empty value `"NPS"`
wins over the static fallback, and an absent resolver falls back. -/
theorem c3_dynamic_precedence_amended_witness :
    toAmplifaiMetric (some (fun _ => some "NPS")) (CellValue.str "weird metric") = some "NPS" ∧
    toAmplifaiMetric none (CellValue.str "weird metric") =
      deriveAmplifaiMetric (CellValue.str "weird metric") := by
  constructor
  · exact (c3_dynamic_precedence_amended.1 (some (fun _ => some "NPS"))
      (CellValue.str "weird metric")).1 (fun _ => some "NPS") "NPS" rfl rfl (by decide)
  · exact (c3_dynamic_precedence_amended.1 none (CellValue.str "weird metric")).2.1 rfl

/-! ### C5: static fallback defaults and lookup order -/

/-- C5 (counterexample): the claim says organization and metric derivation
never return null for a non-empty input with no dictionary match.  The
non-empty, whitespace-only input `" "` matches no dictionary entry, yet both
return null (the code returns null for inputs that are empty after
trimming). -/
theorem c5_blank_input_counterexample :
    (" " : String) ≠ "" ∧
    assocLookup ORG_ALIASES (lowerStr (trimStr " ")) = none ∧
    ORG_ALIASES.find? (fun e => strIncludes (lowerStr (trimStr " ")) e.1) = none ∧
    toAmplifaiOrg (CellValue.str " ") = none ∧
    deriveAmplifaiMetric (CellValue.str " ") = none := by
  exact ⟨by decide, by decide, by decide, by decide, by decide⟩

/-- C5 (amended): for every input string that is non-empty *after trimming*
and matches no dictionary entry (no exact case-insensitive key, no key
contained in the input), organization derivation returns the uppercased,
whitespace-collapsed input and metric derivation returns the uppercased
normalized input (both non-null), while industry derivation returns null;
whitespace-only input instead yields null everywhere; and for the org and
industry dictionaries the exact-match lookup is consulted before the
first-in-declaration-order substring match (metric matching has no exact
stage: its pattern families are tried in declaration order). -/
theorem c5_static_fallback_amended :
    (∀ s : String, trimStr s = "" → toAmplifaiOrg (CellValue.str s) = none) ∧
    (∀ s : String, normalizeWhitespace s = "" → deriveAmplifaiMetric (CellValue.str s) = none) ∧
    (∀ s : String, trimStr s = "" → deriveIndustryFromOrg (CellValue.str s) = none) ∧
    (∀ s : String, trimStr s ≠ "" →
      assocLookup ORG_ALIASES (lowerStr (trimStr s)) = none →
      ORG_ALIASES.find? (fun e => strIncludes (lowerStr (trimStr s)) e.1) = none →
      toAmplifaiOrg (CellValue.str s) = some (collapseWs (upperStr (trimStr s)))) ∧
    (∀ s t : String, coerceToString (CellValue.str s) = some t →
      matchAgainstMappings t METRIC_MAPPINGS = none →
      deriveAmplifaiMetric (CellValue.str s) = some (upperStr t)) ∧
    (∀ s : String, trimStr s ≠ "" →
      assocLookup INDUSTRY_MAPPINGS (lowerStr (trimStr s)) = none →
      INDUSTRY_MAPPINGS.find? (fun e => strIncludes (lowerStr (trimStr s)) e.1) = none →
      deriveIndustryFromOrg (CellValue.str s) = none) ∧
    (∀ s v : String, trimStr s ≠ "" →
      assocLookup ORG_ALIASES (lowerStr (trimStr s)) = some v →
      toAmplifaiOrg (CellValue.str s) = some v) ∧
    (∀ s v : String, trimStr s ≠ "" →
      assocLookup INDUSTRY_MAPPINGS (lowerStr (trimStr s)) = some v →
      deriveIndustryFromOrg (CellValue.str s) = some v) ∧
    (∀ (s : String) (e : String × String), trimStr s ≠ "" →
      assocLookup ORG_ALIASES (lowerStr (trimStr s)) = none →
      ORG_ALIASES.find? (fun en => strIncludes (lowerStr (trimStr s)) en.1) = some e →
      toAmplifaiOrg (CellValue.str s) = some e.2) ∧
    (∀ (s : String) (e : String × String), trimStr s ≠ "" →
      assocLookup INDUSTRY_MAPPINGS (lowerStr (trimStr s)) = none →
      INDUSTRY_MAPPINGS.find? (fun en => strIncludes (lowerStr (trimStr s)) en.1) = some e →
      deriveIndustryFromOrg (CellValue.str s) = some e.2) := by
  refine ⟨?_, ?_, ?_, ?_, ?_, ?_, ?_, ?_, ?_, ?_⟩
  · intro s h
    simp [toAmplifaiOrg, cellToString, h]
  · intro s h
    simp [deriveAmplifaiMetric, coerceToString, h]
  · intro s h
    simp [deriveIndustryFromOrg, cellToString, h]
  · intro s h h1 h2
    simp [toAmplifaiOrg, cellToString, h, h1, h2]
  · intro s t h h1
    simp [deriveAmplifaiMetric, h, h1]
  · intro s h h1 h2
    simp [deriveIndustryFromOrg, cellToString, h, h1, h2]
  · intro s v h h1
    simp [toAmplifaiOrg, cellToString, h, h1]
  · intro s v h h1
    simp [deriveIndustryFromOrg, cellToString, h, h1]
  · intro s e h h1 h2
    simp [toAmplifaiOrg, cellToString, h, h1, h2]
  · intro s e h h1 h2
    simp [deriveIndustryFromOrg, cellToString, h, h1, h2]

/-- C5 (witness): concrete instantiations — a no-match organization defaults
to its uppercase collapsed form, a no-match industry is null, and an exact
dictionary hit wins for both dictionaries. -/
theorem c5_static_fallback_amended_witness :
    toAmplifaiOrg (CellValue.str "Zebra  Corp") = some "ZEBRA CORP" ∧
    deriveAmplifaiMetric (CellValue.str "Zebra Score") = some "ZEBRA SCORE" ∧
    deriveIndustryFromOrg (CellValue.str "Zebra Corp") = none ∧
    toAmplifaiOrg (CellValue.str "uhg") = some "UHC" ∧
    deriveIndustryFromOrg (CellValue.str "Aetna") = some "HEALTHCARE" := by
  refine ⟨?_, ?_, ?_, ?_, ?_⟩
  · have h := c5_static_fallback_amended.2.2.2.1 "Zebra  Corp" (by decide) (by decide) (by decide)
    simpa using h
  · have h := c5_static_fallback_amended.2.2.2.2.1 "Zebra Score" "Zebra Score"
      (by decide) (by decide)
    simpa using h
  · exact c5_static_fallback_amended.2.2.2.2.2.1 "Zebra Corp" (by decide) (by decide) (by decide)
  · exact c5_static_fallback_amended.2.2.2.2.2.2.1 "uhg" "UHC" (by decide) (by decide)
  · exact c5_static_fallback_amended.2.2.2.2.2.2.2.1 "Aetna" "HEALTHCARE" (by decide) (by decide)

/-! ## Normalization tracker (module-global in the source, threaded here as
`Option TrackerState`; `none` is the uninitialized/cleared tracker). -/

/-- An `original → normalized` entry with its occurrence count. -/
structure NormEntry where
  original : String
  normalized : String
  count : Nat
deriving DecidableEq

/-- An organization with no industry mapping. -/
structure UnmatchedOrgEntry where
  orgName : String
  amplifaiOrg : Option String
  count : Nat
deriving DecidableEq

/-- A metric with no standardized mapping. -/
structure UnmatchedMetricEntry where
  metricName : String
  count : Nat
deriving DecidableEq

/-- The tracker maps, as insertion-ordered association lists (JS `Map`). -/
structure TrackerState where
  organizations : List NormEntry
  metrics : List NormEntry
  industries : List NormEntry
  unmatchedOrgs : List UnmatchedOrgEntry
  unmatchedMetrics : List UnmatchedMetricEntry
deriving DecidableEq

/-- `initNormalizationTracking()`. -/
def initTracker : TrackerState := ⟨[], [], [], [], []⟩

/-- Bump the counter keyed by `orig`; the first-seen `normalized` payload is
kept, a new key is appended. -/
def bumpNorm (l : List NormEntry) (orig norm : String) : List NormEntry :=
  if l.any (fun e => e.original == orig) then
    l.map (fun e => if e.original == orig then { e with count := e.count + 1 } else e)
  else l ++ [⟨orig, norm, 1⟩]

/-- Bump the unmatched-organization counter keyed by `orgName`. -/
def bumpUnmatchedOrg (l : List UnmatchedOrgEntry) (orgName : String)
    (amp : Option String) : List UnmatchedOrgEntry :=
  if l.any (fun e => e.orgName == orgName) then
    l.map (fun e => if e.orgName == orgName then { e with count := e.count + 1 } else e)
  else l ++ [⟨orgName, amp, 1⟩]

/-- Bump the unmatched-metric counter keyed by the metric name. -/
def bumpUnmatchedMetric (l : List UnmatchedMetricEntry) (m : String) :
    List UnmatchedMetricEntry :=
  if l.any (fun e => e.metricName == m) then
    l.map (fun e => if e.metricName == m then { e with count := e.count + 1 } else e)
  else l ++ [⟨m, 1⟩]

/-- The three normalization map kinds of `trackNormalization`. -/
inductive NormKind where
  | organizations : NormKind
  | metrics : NormKind
  | industries : NormKind

/-- `trackNormalization`: no-op on an uninitialized tracker or when either
string is falsy. -/
def trackNormalization (tr : Option TrackerState) (kind : NormKind)
    (original normalized : String) : Option TrackerState :=
  match tr with
  | none => none
  | some t =>
    if original = "" ∨ normalized = "" then some t
    else
      some (match kind with
        | .organizations => { t with organizations := bumpNorm t.organizations original normalized }
        | .metrics => { t with metrics := bumpNorm t.metrics original normalized }
        | .industries => { t with industries := bumpNorm t.industries original normalized })

/-- `trackUnmatchedOrg`. -/
def trackUnmatchedOrg (tr : Option TrackerState) (orgName : String)
    (amp : Option String) : Option TrackerState :=
  match tr with
  | none => none
  | some t =>
    if orgName = "" then some t
    else some { t with unmatchedOrgs := bumpUnmatchedOrg t.unmatchedOrgs orgName amp }

/-- `metricName.toUpperCase().replace(/\s+/g, ' ').trim()` — the trivial
uppercase-and-collapse-whitespace transform. -/
def upperTransform (m : String) : String := trimStr (collapseWs (upperStr m))

/-- `trackUnmatchedMetric`: records the metric iff its canonical form is
exactly the trivial uppercase transform of the original (guards: tracker
initialized, metric name and canonical value truthy). -/
def trackUnmatchedMetric (tr : Option TrackerState) (metricName : String)
    (amplifai : Option String) : Option TrackerState :=
  match tr with
  | none => none
  | some t =>
    if metricName = "" then some t
    else
      match amplifai with
      | none => some t
      | some a =>
        if a = "" then some t
        else if a = upperTransform metricName then
          some { t with unmatchedMetrics := bumpUnmatchedMetric t.unmatchedMetrics metricName }
        else some t

/-- Summary comparator: descending by occurrence count. -/
def normEntryBefore (a b : NormEntry) : Bool := decide (b.count < a.count)

/-- Summary comparator for unmatched organizations. -/
def unmatchedOrgBefore (a b : UnmatchedOrgEntry) : Bool := decide (b.count < a.count)

/-- Summary comparator for unmatched metrics. -/
def unmatchedMetricBefore (a b : UnmatchedMetricEntry) : Bool := decide (b.count < a.count)

/-- The summary shape returned to the caller. -/
structure NormalizationSummary where
  organizations : List NormEntry
  metrics : List NormEntry
  industries : List NormEntry
  unmatchedOrgs : List UnmatchedOrgEntry
  unmatchedMetrics : List UnmatchedMetricEntry
deriving DecidableEq

/-- The empty summary (uninitialized tracker). -/
def emptySummary : NormalizationSummary := ⟨[], [], [], [], []⟩

/-- `toEntries`: keep only genuine changes (case-insensitively different),
sorted descending by count. -/
def toEntries (l : List NormEntry) : List NormEntry :=
  stableSort normEntryBefore
    (l.filter (fun e => !(lowerStr e.original == lowerStr e.normalized)))

/-- `getNormalizationSummary()`: derive the summary and clear the tracker. -/
def getNormalizationSummary (tr : Option TrackerState) :
    NormalizationSummary × Option TrackerState :=
  match tr with
  | none => (emptySummary, none)
  | some t =>
    ({ organizations := toEntries t.organizations,
       metrics := toEntries t.metrics,
       industries := toEntries t.industries,
       unmatchedOrgs := stableSort unmatchedOrgBefore t.unmatchedOrgs,
       unmatchedMetrics := stableSort unmatchedMetricBefore t.unmatchedMetrics },
     none)

/-- The metric-tracking statements of the row transformers:
`if (metricStr && amplifaiMetric) trackNormalization('metrics', ...)` then
`if (metricStr) trackUnmatchedMetric(...)`. -/
def trackMetricOutcome (tr : Option TrackerState) (metricStr amplifai : Option String) :
    Option TrackerState :=
  let tr1 :=
    match metricStr, amplifai with
    | some m, some a =>
      if m ≠ "" ∧ a ≠ "" then trackNormalization tr NormKind.metrics m a else tr
    | _, _ => tr
  match metricStr with
  | some m => if m ≠ "" then trackUnmatchedMetric tr1 m amplifai else tr1
  | none => tr1

/-- The organization/industry-tracking statements of the row transformers. -/
def trackOrgOutcome (tr : Option TrackerState)
    (orgStr amplifaiOrg amplifaiIndustry : Option String) : Option TrackerState :=
  let tr1 :=
    match orgStr, amplifaiOrg with
    | some o, some a =>
      if o ≠ "" ∧ a ≠ "" then trackNormalization tr NormKind.organizations o a else tr
    | _, _ => tr
  let tr2 :=
    match orgStr, amplifaiIndustry with
    | some o, some a =>
      if o ≠ "" ∧ a ≠ "" then trackNormalization tr1 NormKind.industries o a else tr1
    | _, _ => tr1
  match orgStr with
  | some o =>
    if o ≠ "" ∧ optStrTruthy amplifaiIndustry = false then
      trackUnmatchedOrg tr2 o amplifaiOrg
    else tr2
  | none => tr2

/-! ### C8: the unmatched-metric tracking rule -/

/-- The metric-field tracking work done for each accepted row, folded over a
sequence of raw metric cell values (a parse session), with the given injected
dynamic resolver. -/
def metricTrackSession (db : Option (CellValue → Option String)) (vs : List CellValue)
    (tr : Option TrackerState) : Option TrackerState :=
  vs.foldl (fun tr v => trackMetricOutcome tr (coerceString v) (toAmplifaiMetric db v)) tr

theorem coerceString_str_eq (v : String) :
    coerceString (CellValue.str v) =
      if normalizeWhitespace v = "" then none else some (normalizeWhitespace v) := rfl

theorem coerceToString_str_eq (v : String) :
    coerceToString (CellValue.str v) = coerceString (CellValue.str v) := rfl

theorem coerceString_str_ne_empty {v s : String}
    (h : coerceString (CellValue.str v) = some s) : s ≠ "" := by
  rw [coerceString_str_eq] at h
  by_cases ht : normalizeWhitespace v = ""
  · rw [if_pos ht] at h
    exact absurd h (by simp)
  · rw [if_neg ht] at h
    exact (Option.some.inj h) ▸ ht

theorem upperStr_eq_empty {s : String} (h : upperStr s = "") : s = "" := by
  cases s with
  | mk data =>
    have hd : data.map Char.toUpper = [] := congrArg String.data h
    have hnil : data = [] := List.map_eq_nil_iff.mp hd
    subst hnil
    rfl

/-- The single-metric tracker state after `j` occurrences of the metric `s`
whose canonical form is `A`. -/
def c8State (s A : String) (j : Nat) : TrackerState :=
  ⟨[], [⟨s, A, j⟩], [], [], [⟨s, j⟩]⟩

theorem trackMetricOutcome_some (tr : Option TrackerState) (m a : String) :
    trackMetricOutcome tr (some m) (some a) =
      (if m ≠ "" then
        trackUnmatchedMetric
          (if m ≠ "" ∧ a ≠ "" then trackNormalization tr NormKind.metrics m a else tr)
          m (some a)
      else if m ≠ "" ∧ a ≠ "" then trackNormalization tr NormKind.metrics m a else tr) := rfl

theorem trackNormalization_some_metrics (t : TrackerState) (o n : String) :
    trackNormalization (some t) NormKind.metrics o n =
      if o = "" ∨ n = "" then some t
      else some { t with metrics := bumpNorm t.metrics o n } := rfl

theorem trackUnmatchedMetric_some (t : TrackerState) (m a : String) :
    trackUnmatchedMetric (some t) m (some a) =
      if m = "" then some t
      else if a = "" then some t
      else if a = upperTransform m then
        some { t with unmatchedMetrics := bumpUnmatchedMetric t.unmatchedMetrics m }
      else some t := rfl

theorem c8_step_init {s A : String} (hs : s ≠ "") (hA : A ≠ "")
    (hAeq : A = upperTransform s) :
    trackMetricOutcome (some initTracker) (some s) (some A) = some (c8State s A 1) := by
  rw [trackMetricOutcome_some, if_pos hs, if_pos ⟨hs, hA⟩, trackNormalization_some_metrics,
    if_neg (by simp [hs, hA]), trackUnmatchedMetric_some, if_neg hs, if_neg hA, if_pos hAeq]
  simp [initTracker, c8State, bumpNorm, bumpUnmatchedMetric]

theorem c8_step_succ {s A : String} (hs : s ≠ "") (hA : A ≠ "")
    (hAeq : A = upperTransform s) (j : Nat) :
    trackMetricOutcome (some (c8State s A j)) (some s) (some A) =
      some (c8State s A (j + 1)) := by
  rw [trackMetricOutcome_some, if_pos hs, if_pos ⟨hs, hA⟩, trackNormalization_some_metrics,
    if_neg (by simp [hs, hA]), trackUnmatchedMetric_some, if_neg hs, if_neg hA, if_pos hAeq]
  simp [c8State, bumpNorm, bumpUnmatchedMetric]

theorem c8_session_aux {v s A : String} (hs : s ≠ "") (hA : A ≠ "")
    (hAeq : A = upperTransform s)
    (h1 : coerceString (CellValue.str v) = some s)
    (hamp : toAmplifaiMetric none (CellValue.str v) = some A) :
    ∀ (k j : Nat),
      metricTrackSession none (List.replicate k (CellValue.str v)) (some (c8State s A j)) =
        some (c8State s A (j + k)) := by
  intro k
  induction k with
  | zero =>
    intro j
    simp [metricTrackSession]
  | succ k ih =>
    intro j
    rw [List.replicate_succ]
    have hstep : trackMetricOutcome (some (c8State s A j)) (coerceString (CellValue.str v))
        (toAmplifaiMetric none (CellValue.str v)) = some (c8State s A (j + 1)) := by
      rw [h1, hamp]
      exact c8_step_succ hs hA hAeq j
    simp only [metricTrackSession, List.foldl_cons]
    rw [hstep]
    have := ih (j + 1)
    simp only [metricTrackSession] at this
    rw [this]
    have harith : j + 1 + k = j + (k + 1) := by omega
    rw [harith]

/-- C8: a metric is tracked as unmatched exactly when its canonical form
equals the trivial uppercase-and-collapse-whitespace transform of the
original; consequently, a parse session consisting of `n ≥ 1` occurrences of
a metric raw value with no dictionary entry yields a normalization summary
whose `unmatchedMetrics` list is exactly one entry for it carrying count `n`,
while the `metrics` normalization list does not contain it. -/
theorem c8_unmatched_metric_spec :
    (∀ (t : TrackerState) (metricName : String) (amplifai : Option String),
      metricName ≠ "" → upperTransform metricName ≠ "" →
      trackUnmatchedMetric (some t) metricName amplifai =
        some { t with unmatchedMetrics :=
          if amplifai = some (upperTransform metricName) then
            bumpUnmatchedMetric t.unmatchedMetrics metricName
          else t.unmatchedMetrics }) ∧
    (∀ (v s : String) (n : Nat),
      0 < n →
      coerceString (CellValue.str v) = some s →
      matchAgainstMappings s METRIC_MAPPINGS = none →
      upperTransform s = upperStr s →
      lowerStr s = lowerStr (upperStr s) →
      getNormalizationSummary
        (metricTrackSession none (List.replicate n (CellValue.str v)) (some initTracker)) =
      ({ organizations := [], metrics := [], industries := [], unmatchedOrgs := [],
         unmatchedMetrics := [⟨s, n⟩] }, none)) := by
  constructor
  · intro t m a hm ht
    cases a with
    | none =>
      simp [trackUnmatchedMetric, hm]
    | some a =>
      by_cases heq : a = upperTransform m
      · subst heq
        simp [trackUnmatchedMetric, hm, ht]
      · by_cases ha : a = ""
        · subst ha
          simp [trackUnmatchedMetric, hm, Ne.symm ht]
        · simp [trackUnmatchedMetric, hm, ha, heq]
  · intro v s n hn h1 h2 h3 h4
    have hs : s ≠ "" := coerceString_str_ne_empty h1
    have hAne : upperStr s ≠ "" := fun hA => hs (upperStr_eq_empty hA)
    have hcoerce : coerceToString (CellValue.str v) = some s := by
      rw [coerceToString_str_eq]; exact h1
    have hamp : toAmplifaiMetric none (CellValue.str v) = some (upperStr s) := by
      simp [toAmplifaiMetric, deriveAmplifaiMetric, hcoerce, h2]
    cases n with
    | zero => omega
    | succ m =>
      rw [List.replicate_succ]
      have hstep : trackMetricOutcome (some initTracker) (coerceString (CellValue.str v))
          (toAmplifaiMetric none (CellValue.str v)) = some (c8State s (upperStr s) 1) := by
        rw [h1, hamp]
        exact c8_step_init hs hAne h3.symm
      simp only [metricTrackSession, List.foldl_cons]
      rw [hstep]
      have haux := c8_session_aux hs hAne h3.symm h1 hamp m 1
      simp only [metricTrackSession] at haux
      rw [haux]
      have harith : 1 + m = m + 1 := by omega
      rw [harith]
      simp [getNormalizationSummary, c8State, toEntries, stableSort, insertSorted, h4]

/-- C8 (witness): the tracking rule and the session property instantiated at
the dictionary-less metric `"Zebra Score"` seen twice. -/
theorem c8_unmatched_metric_spec_witness :
    trackUnmatchedMetric (some initTracker) "Zebra Score" (some "ZEBRA SCORE") =
      some { initTracker with unmatchedMetrics := [⟨"Zebra Score", 1⟩] } ∧
    getNormalizationSummary
      (metricTrackSession none (List.replicate 2 (CellValue.str "Zebra  Score"))
        (some initTracker)) =
    ({ organizations := [], metrics := [], industries := [], unmatchedOrgs := [],
       unmatchedMetrics := [⟨"Zebra Score", 2⟩] }, none) := by
  constructor
  · have h := c8_unmatched_metric_spec.1 initTracker "Zebra Score" (some "ZEBRA SCORE")
      (by decide) (by decide)
    exact h.trans (by decide)
  · exact c8_unmatched_metric_spec.2 "Zebra  Score" "Zebra Score" 2
      (by decide) (by decide) (by decide) (by decide) (by decide)

/-! ## Column accessor (`COLUMN_ALIASES`, `createRowAccessor`) -/

/-- A decoded spreadsheet row: ordered key/value pairs (`sheet_to_json`). -/
abbrev Row := List (String × CellValue)

/-- Key normalization of the accessor index: `key.toLowerCase().trim()`. -/
def normKey (k : String) : String := trimStr (lowerStr k)

/-- JS `Map.set`: replace in place when the key exists, else append. -/
def mapSet (m : List (String × α)) (k : String) (v : α) : List (String × α) :=
  if m.any (fun e => e.1 == k) then
    m.map (fun e => if e.1 == k then (k, v) else e)
  else m ++ [(k, v)]

/-- JS `Map.get` (insertion-ordered association list). -/
def mapGet (m : List (String × α)) (k : String) : Option α :=
  (m.find? (fun e => e.1 == k)).map (fun e => e.2)

/-- The accessor's normalized-key → value index built once per row. -/
def buildKeyMap (row : Row) : List (String × CellValue) :=
  row.foldl (fun m kv => mapSet m (normKey kv.1) kv.2) []

/-- The accessor's normalized-key → original-key index (for `keys()`). -/
def buildOriginalKeys (row : Row) : List (String × String) :=
  row.foldl (fun m kv => mapSet m (normKey kv.1) kv.1) []

/-- `COLUMN_ALIASES`: canonical name → accepted spellings, as in the source
(note the whitespace-only alias registered for `organization`). -/
def COLUMN_ALIASES : List (String × List String) :=
  [("month_year", ["month_year", "month year", "monthyear", "period of time",
    "period", "month name", "month", "date"]),
   ("organization", ["organization", "org", "organisation", "client_org", " "]),
   ("program", ["program", "programme", "prog"]),
   ("metric", ["metric", "metrics", "metri", "metricname", "metric_name",
    "metric name", "kpi"]),
   ("behavior", ["behavior", "behaviors", "behaviour", "behaviours"]),
   ("sub_behavior", ["sub-behavior", "sub_behavior", "subbehavior",
    "subbehaviors", "sub behavior", "sub-behaviours"]),
   ("coaching_count", ["coaching count", "coaching_count", "coachingcount",
    "totalcoachings", "total coachings", "total_coachings", "count"]),
   ("effectiveness_pct", ["effectiveness%", "effectiveness_pct",
    "effectiveness", "effectiveness pct", "eff%", "eff"]),
   ("actual", ["actual", "actuals", "value", "result"]),
   ("goal", ["goal", "goals", "target"]),
   ("ptg", ["ptg", "sum of ptg", "percent to goal", "% to goal", "pct_to_goal"])]

/-- `COLUMN_ALIASES[canonicalName] || []`. -/
def columnAliases (canonical : String) : List String :=
  ((COLUMN_ALIASES.find? (fun e => e.1 == canonical)).map (fun e => e.2)).getD []

/-- The presence test of the accessor loop:
`value !== undefined && value !== null && value !== ''`. -/
def cellPresent : CellValue → Bool
  | .null => false
  | .str s => s ≠ ""
  | _ => true

/-- The `get` loop: first alias (normalized) whose value is present wins. -/
def firstPresent (km : List (String × CellValue)) : List String → Option CellValue
  | [] => none
  | a :: rest =>
    match mapGet km (normKey a) with
    | some v => if cellPresent v then some v else firstPresent km rest
    | none => firstPresent km rest

/-- `accessor.get(canonicalName, ...additionalAliases)`: registered aliases
first, then the canonical name itself, then caller-supplied extras. -/
def accessorGet (row : Row) (canonical : String) (extra : List String) :
    Option CellValue :=
  firstPresent (buildKeyMap row) (columnAliases canonical ++ [canonical] ++ extra)

/-- `accessor.getRaw(key)`. -/
def accessorGetRaw (row : Row) (k : String) : Option CellValue :=
  mapGet (buildKeyMap row) (normKey k)

/-- `accessor.hasAny(...names)`. -/
def accessorHasAny (row : Row) (names : List String) : Bool :=
  names.any (fun n => (mapGet (buildKeyMap row) (normKey n)).isSome)

/-- `accessor.keys()`. -/
def accessorKeys (row : Row) : List String :=
  (buildOriginalKeys row).map (fun e => e.2)

/-- Whether the index holds a present (non-null, non-empty) value at a key. -/
def presentAt (km : List (String × CellValue)) (k : String) : Bool :=
  ((mapGet km k).map cellPresent).getD false

theorem firstPresent_skip {km : List (String × CellValue)} {a : String}
    (rest : List String) (h : presentAt km (normKey a) = false) :
    firstPresent km (a :: rest) = firstPresent km rest := by
  rw [presentAt] at h
  cases hm : mapGet km (normKey a) with
  | none => simp [firstPresent, hm]
  | some w =>
    rw [hm] at h
    simp at h
    simp [firstPresent, hm, h]

/-- C10: the whitespace-only alias registered under `organization` makes a
blank-headed column an organization source: if the row's index holds a
present value under the empty normalized key and none of `organization`,
`org`, `organisation`, `client_org` hold a present value, then
`get('organization')` returns the blank-headed column's value, not null. -/
theorem c10_blank_header_org_alias :
    ∀ (row : Row) (v : CellValue),
      mapGet (buildKeyMap row) "" = some v →
      cellPresent v = true →
      presentAt (buildKeyMap row) "organization" = false →
      presentAt (buildKeyMap row) "org" = false →
      presentAt (buildKeyMap row) "organisation" = false →
      presentAt (buildKeyMap row) "client_org" = false →
      accessorGet row "organization" [] = some v := by
  intro row v hv hp h1 h2 h3 h4
  have hal : columnAliases "organization" ++ ["organization"] ++ ([] : List String) =
      ["organization", "org", "organisation", "client_org", " ", "organization"] := by
    decide
  rw [accessorGet, hal]
  rw [firstPresent_skip _ h1, firstPresent_skip _ h2, firstPresent_skip _ h3,
    firstPresent_skip _ h4]
  have hns : normKey " " = "" := by decide
  simp [firstPresent, hns, hv, hp]

/-- C10 (witness): a row whose only organization-like column has a blank
header. -/
theorem c10_blank_header_org_alias_witness :
    accessorGet [(" ", CellValue.str "Acme Corp"), ("Program", CellValue.str "Care")]
      "organization" [] = some (CellValue.str "Acme Corp") := by
  exact c10_blank_header_org_alias
    [(" ", CellValue.str "Acme Corp"), ("Program", CellValue.str "Care")]
    (CellValue.str "Acme Corp")
    (by decide) (by decide) (by decide) (by decide) (by decide) (by decide)

/-! ## Row transformers (`parseBehaviorRows`, `parseMetricRows`) -/

/-- Per-dataset row statistics. -/
structure DatasetStats where
  totalRows : Nat
  acceptedRows : Nat
  filteredMissingData : Nat
  filteredTooRecent : Nat
deriving DecidableEq

/-- `initStats()`. -/
def initStats : DatasetStats := ⟨0, 0, 0, 0⟩

/-- JS truthiness of the nullable parsed year (`!year`: null and 0 are falsy). -/
def optIntTruthy : Option Int → Bool
  | none => false
  | some y => y ≠ 0

/-- A parsed behavior record (the random `nanoid` id, an external effect, is
omitted). -/
structure ParsedBehaviorRow where
  client : String
  month : String
  year : Int
  sourceRowNumber : Nat
  sourceSheet : String
  organization : Option String
  program : Option String
  metric : Option String
  behavior : Option String
  subBehavior : Option String
  coachingCount : Option ℚ
  effectivenessPct : Option ℚ
  amplifaiOrg : Option String
  amplifaiMetric : Option String
  amplifaiIndustry : Option String
  raw : Row
deriving DecidableEq

/-- A parsed metric record (the random `nanoid` id omitted). -/
structure ParsedMetricRow where
  client : String
  month : String
  year : Int
  sourceRowNumber : Nat
  sourceSheet : String
  organization : Option String
  program : Option String
  metricName : Option String
  actual : Option ℚ
  goal : Option ℚ
  ptg : Option ℚ
  isActivityMetric : Bool
  amplifaiOrg : Option String
  amplifaiMetric : Option String
  amplifaiIndustry : Option String
  raw : Row
deriving DecidableEq

/-- The injected DB-backed resolvers (module globals `dbMetricResolver`,
`dbIndustryResolver` in the source, passed explicitly here). -/
structure DbResolvers where
  metric : Option (CellValue → Option String)
  industry : Option (CellValue → Option String)

/-- No injected resolvers (the source's initial/cleared state). -/
def noDbResolvers : DbResolvers := ⟨none, none⟩

/-- The three exits of one row of the transformer state machine. -/
inductive RowVerdict (α : Type) where
  | missing : RowVerdict α
  | tooRecent : RowVerdict α
  | accepted : α → Option TrackerState → RowVerdict α

/-- One behavior row: period check, optional date filter, required fields
(organization, program), canonicalization, tracking, record emission.
The five tracking statements of the source touch five disjoint tracker maps;
they are grouped here as org-related then metric-related, which is
state-equivalent to the source's statement order. -/
def behaviorRowStep (db : DbResolvers) (sheetName client : String) (todayDays : Int)
    (skipDateFilter : Bool) (row : Row) (index : Nat) (tr : Option TrackerState) :
    RowVerdict ParsedBehaviorRow :=
  let monthYearValue := (accessorGet row "month_year" []).getD CellValue.null
  let my := parseMonthYear monthYearValue
  match my.1, my.2 with
  | some month, some year =>
    if month = "" ∨ year = 0 then RowVerdict.missing
    else if !skipDateFilter && !(isMonthOldEnough month year todayDays) then
      RowVerdict.tooRecent
    else
      let organizationValue := accessorGet row "organization" []
      let programValue := accessorGet row "program" []
      if !(optCellTruthy organizationValue) || !(optCellTruthy programValue) then
        RowVerdict.missing
      else
        let metricValue := (accessorGet row "metric" []).getD CellValue.null
        let behaviorValue := (accessorGet row "behavior" []).getD CellValue.null
        let subBehaviorValue := (accessorGet row "sub_behavior" []).getD CellValue.null
        let coachingCountValue := (accessorGet row "coaching_count" []).getD CellValue.null
        let effectivenessValue := (accessorGet row "effectiveness_pct" []).getD CellValue.null
        let orgCell := organizationValue.getD CellValue.null
        let orgStr := coerceString orgCell
        let metricStr := coerceString metricValue
        let amplifaiOrg := toAmplifaiOrg orgCell
        let amplifaiMetric := toAmplifaiMetric db.metric metricValue
        let amplifaiIndustry := toAmplifaiIndustry db.industry orgCell
        let tr2 := trackOrgOutcome tr orgStr amplifaiOrg amplifaiIndustry
        let tr3 := trackMetricOutcome tr2 metricStr amplifaiMetric
        RowVerdict.accepted
          { client := client, month := month, year := year,
            sourceRowNumber := index + 2, sourceSheet := sheetName,
            organization := orgStr,
            program := coerceString (programValue.getD CellValue.null),
            metric := metricStr,
            behavior := coerceString behaviorValue,
            subBehavior := coerceString subBehaviorValue,
            coachingCount := toNumber coachingCountValue,
            effectivenessPct := toNumber effectivenessValue,
            amplifaiOrg := amplifaiOrg, amplifaiMetric := amplifaiMetric,
            amplifaiIndustry := amplifaiIndustry, raw := row }
          tr3
  | _, _ => RowVerdict.missing

/-- One metric row: like the behavior row but `metric` is also required and
the emitted fields are actual/goal/ptg; `isActivityMetric` is hard-coded
`false` in the source. -/
def metricRowStep (db : DbResolvers) (sheetName client : String) (todayDays : Int)
    (skipDateFilter : Bool) (row : Row) (index : Nat) (tr : Option TrackerState) :
    RowVerdict ParsedMetricRow :=
  let monthYearValue := (accessorGet row "month_year" []).getD CellValue.null
  let my := parseMonthYear monthYearValue
  match my.1, my.2 with
  | some month, some year =>
    if month = "" ∨ year = 0 then RowVerdict.missing
    else if !skipDateFilter && !(isMonthOldEnough month year todayDays) then
      RowVerdict.tooRecent
    else
      let organizationValue := accessorGet row "organization" []
      let programValue := accessorGet row "program" []
      let metricValue := accessorGet row "metric" []
      if !(optCellTruthy organizationValue) || !(optCellTruthy programValue) ||
          !(optCellTruthy metricValue) then
        RowVerdict.missing
      else
        let actualValue := (accessorGet row "actual" []).getD CellValue.null
        let goalValue := (accessorGet row "goal" []).getD CellValue.null
        let ptgValue := (accessorGet row "ptg" []).getD CellValue.null
        let orgCell := organizationValue.getD CellValue.null
        let metricCell := metricValue.getD CellValue.null
        let programStr := coerceString (programValue.getD CellValue.null)
        let orgStr := coerceString orgCell
        let metricStr := coerceString metricCell
        let amplifaiOrg := toAmplifaiOrg orgCell
        let amplifaiMetric := toAmplifaiMetric db.metric metricCell
        let amplifaiIndustry := toAmplifaiIndustry db.industry orgCell
        let tr2 := trackOrgOutcome tr orgStr amplifaiOrg amplifaiIndustry
        let tr3 := trackMetricOutcome tr2 metricStr amplifaiMetric
        RowVerdict.accepted
          { client := client, month := month, year := year,
            sourceRowNumber := index + 2, sourceSheet := sheetName,
            organization := orgStr, program := programStr,
            metricName := metricStr,
            actual := toNumber actualValue,
            goal := toNumber goalValue,
            ptg := toNumber ptgValue,
            isActivityMetric := false,
            amplifaiOrg := amplifaiOrg, amplifaiMetric := amplifaiMetric,
            amplifaiIndustry := amplifaiIndustry, raw := row }
          tr3
  | _, _ => RowVerdict.missing

/-- The `rows.forEach` loop of `parseBehaviorRows`: every row bumps
`totalRows` and exactly one of the three outcome counters. -/
def parseBehaviorRowsGo (db : DbResolvers) (sheetName client : String)
    (todayDays : Int) (skipDateFilter : Bool) :
    List Row → Nat → DatasetStats → Option TrackerState →
      List ParsedBehaviorRow × DatasetStats × Option TrackerState
  | [], _, stats, tr => ([], stats, tr)
  | row :: rest, index, stats, tr =>
    let stats1 := { stats with totalRows := stats.totalRows + 1 }
    match behaviorRowStep db sheetName client todayDays skipDateFilter row index tr with
    | .missing =>
      parseBehaviorRowsGo db sheetName client todayDays skipDateFilter rest (index + 1)
        { stats1 with filteredMissingData := stats1.filteredMissingData + 1 } tr
    | .tooRecent =>
      parseBehaviorRowsGo db sheetName client todayDays skipDateFilter rest (index + 1)
        { stats1 with filteredTooRecent := stats1.filteredTooRecent + 1 } tr
    | .accepted record tr' =>
      let res := parseBehaviorRowsGo db sheetName client todayDays skipDateFilter rest
        (index + 1) { stats1 with acceptedRows := stats1.acceptedRows + 1 } tr'
      (record :: res.1, res.2)

/-- `parseBehaviorRows(rows, sheetName, client, today, stats, skipDateFilter)`. -/
def parseBehaviorRows (db : DbResolvers) (rows : List Row) (sheetName client : String)
    (todayDays : Int) (stats : DatasetStats) (tr : Option TrackerState)
    (skipDateFilter : Bool) :
    List ParsedBehaviorRow × DatasetStats × Option TrackerState :=
  parseBehaviorRowsGo db sheetName client todayDays skipDateFilter rows 0 stats tr

/-- The `rows.forEach` loop of `parseMetricRows`. -/
def parseMetricRowsGo (db : DbResolvers) (sheetName client : String)
    (todayDays : Int) (skipDateFilter : Bool) :
    List Row → Nat → DatasetStats → Option TrackerState →
      List ParsedMetricRow × DatasetStats × Option TrackerState
  | [], _, stats, tr => ([], stats, tr)
  | row :: rest, index, stats, tr =>
    let stats1 := { stats with totalRows := stats.totalRows + 1 }
    match metricRowStep db sheetName client todayDays skipDateFilter row index tr with
    | .missing =>
      parseMetricRowsGo db sheetName client todayDays skipDateFilter rest (index + 1)
        { stats1 with filteredMissingData := stats1.filteredMissingData + 1 } tr
    | .tooRecent =>
      parseMetricRowsGo db sheetName client todayDays skipDateFilter rest (index + 1)
        { stats1 with filteredTooRecent := stats1.filteredTooRecent + 1 } tr
    | .accepted record tr' =>
      let res := parseMetricRowsGo db sheetName client todayDays skipDateFilter rest
        (index + 1) { stats1 with acceptedRows := stats1.acceptedRows + 1 } tr'
      (record :: res.1, res.2)

/-- `parseMetricRows(rows, sheetName, client, today, stats, skipDateFilter)`. -/
def parseMetricRows (db : DbResolvers) (rows : List Row) (sheetName client : String)
    (todayDays : Int) (stats : DatasetStats) (tr : Option TrackerState)
    (skipDateFilter : Bool) :
    List ParsedMetricRow × DatasetStats × Option TrackerState :=
  parseMetricRowsGo db sheetName client todayDays skipDateFilter rows 0 stats tr

/-! ## Sheet detection and the workbook orchestrator -/

/-- `looksLikeBehaviorSheet`: the first data row has a behavior-like column. -/
def looksLikeBehaviorSheet (rows : List Row) : Bool :=
  match rows with
  | [] => false
  | firstRow :: _ =>
    accessorHasAny firstRow
      ["behavior", "behaviors", "behaviour", "behaviours", "subbehaviors",
       "sub-behavior", "subbehavior"]

/-- `looksLikeMetricSheet`: actual/goal/ptg columns and no behavior column. -/
def looksLikeMetricSheet (rows : List Row) : Bool :=
  match rows with
  | [] => false
  | firstRow :: _ =>
    accessorHasAny firstRow ["actual", "actuals", "goal", "goals", "ptg", "sum of ptg"] &&
      !(accessorHasAny firstRow ["behavior", "behaviors", "behaviour", "behaviours"])

/-- A decoded workbook: sheet names in file order with their decoded rows
(the `xlsx` container decoding is the external collaborator). -/
structure Workbook where
  sheets : List (String × List Row)

/-- `workbook.SheetNames`. -/
def sheetNames (wb : Workbook) : List String := wb.sheets.map (fun e => e.1)

/-- `workbook.Sheets[name]` (already decoded to rows). -/
def sheetLookup (wb : Workbook) (name : String) : Option (List Row) :=
  (wb.sheets.find? (fun e => e.1 == name)).map (fun e => e.2)

/-- The keyword fallback of `pickSheet`: first sheet whose name contains the
keyword (case-insensitively), else the first sheet, else null. -/
def pickSheetKeyword (wb : Workbook) (keyword : String) : Option String :=
  match (sheetNames wb).find? (fun nm => strIncludes (lowerStr nm) (lowerStr keyword)) with
  | some m => some m
  | none => (sheetNames wb).head?

/-- `pickSheet(workbook, keyword, explicit?)`: a truthy explicit name that
exists wins, else the keyword fallback. -/
def pickSheet (wb : Workbook) (keyword : String) (explicit : Option String) :
    Option String :=
  match explicit with
  | some e =>
    if e ≠ "" && (sheetNames wb).contains e then some e else pickSheetKeyword wb keyword
  | none => pickSheetKeyword wb keyword

/-- The loop of `autoDetectSheets`: greedy first-fit assignment of the
behavior and metric roles, `behavior` tested first, early exit when both are
assigned. -/
def autoDetectGo : List (String × List Row) → Option String × Option String →
    Option String × Option String
  | [], acc => acc
  | (nm, rows) :: rest, (b, m) =>
    if rows.isEmpty then autoDetectGo rest (b, m)
    else
      let takeB := !(optStrTruthy b) && looksLikeBehaviorSheet rows
      let b' := if takeB then some nm else b
      let m' :=
        if takeB then m
        else if !(optStrTruthy m) && looksLikeMetricSheet rows then some nm else m
      if optStrTruthy b' && optStrTruthy m' then (b', m') else autoDetectGo rest (b', m')

/-- `autoDetectSheets(workbook)`. -/
def autoDetectSheets (wb : Workbook) : Option String × Option String :=
  autoDetectGo wb.sheets (none, none)

/-- Strip a case-insensitive suffix (one `replace(/suffix$/i, '')` step). -/
def stripSuffixCI (s : String) (suffixLower : String) : String :=
  match dropPfx (lowerStr s).data.reverse suffixLower.data.reverse with
  | some _ => String.mk (s.data.take (s.data.length - suffixLower.data.length))
  | none => s

/-- `split(/[_-]/)[0]`: the prefix before the first `_` or `-`. -/
def firstSeg (s : String) : String :=
  String.mk (s.data.takeWhile (fun c => !(c = '_' || c = '-')))

/-- `inferClientFromFile(fileName)`. -/
def inferClientFromFile (fileName : String) : String :=
  let withoutExt := stripSuffixCI fileName ".xlsx"
  let withoutData := stripSuffixCI withoutExt "_data"
  let segment := firstSeg withoutData
  let cleaned := normalizeWhitespace segment
  if cleaned = "" then "Unknown Client"
  else if strIncludes (lowerStr cleaned) "teleperformance" then "TP"
  else if cleaned.data.length ≤ 4 then upperStr cleaned
  else
    match cleaned.data with
    | [] => cleaned
    | c :: rest => String.mk (Char.toUpper c :: rest)

/-- Options of `parseWorkbook` (`today` is the UTC day number of the clock
value, an external input; the decoded workbook replaces the raw buffer). -/
structure ParseWorkbookOptions where
  fileName : String
  clientOverride : Option String
  behaviorSheetHint : Option String
  metricSheetHint : Option String
  todayDays : Int
  skipDateFilter : Option Bool

/-- `meta` of the workbook result (`generatedAt`, a clock read, omitted). -/
structure ParseWorkbookMeta where
  workbookName : String
  client : String
  behaviorSheet : Option String
  metricSheet : Option String
  behaviorStats : DatasetStats
  metricStats : DatasetStats
deriving DecidableEq

/-- The workbook-level result. -/
structure ParseWorkbookResult where
  behaviors : List ParsedBehaviorRow
  monthlyMetrics : List ParsedMetricRow
  activityMetrics : List ParsedMetricRow
  meta : ParseWorkbookMeta
  issues : List String
deriving DecidableEq

/-- `parseWorkbook`: throws (`Except.error`) when the workbook has no sheets;
otherwise resolves the two sheets (hints, auto-detection, keyword fallback),
parses both datasets, splits metric records on `isActivityMetric`, and
collects human-readable issues. -/
def parseWorkbook (db : DbResolvers) (opts : ParseWorkbookOptions) (wb : Workbook)
    (tr : Option TrackerState) :
    Except String (ParseWorkbookResult × Option TrackerState) :=
  if (sheetNames wb).isEmpty then
    Except.error "The uploaded workbook does not contain any sheets."
  else
    let client := opts.clientOverride.getD (inferClientFromFile opts.fileName)
    let skipDateFilter := opts.skipDateFilter.getD true
    let autoDetected := autoDetectSheets wb
    let behaviorSheetName0 :=
      match opts.behaviorSheetHint with
      | some h =>
        if h ≠ "" then pickSheet wb "effectiveness" (some h)
        else match autoDetected.1 with
          | some b => some b
          | none => pickSheet wb "effectiveness" none
      | none =>
        match autoDetected.1 with
        | some b => some b
        | none => pickSheet wb "effectiveness" none
    let metricSheetName0 :=
      match opts.metricSheetHint with
      | some h =>
        if h ≠ "" then pickSheet wb "goal" (some h)
        else match autoDetected.2 with
          | some m => some m
          | none => pickSheet wb "goal" none
      | none =>
        match autoDetected.2 with
        | some m => some m
        | none => pickSheet wb "goal" none
    let pair :=
      if behaviorSheetName0 = metricSheetName0 ∧ 1 < (sheetNames wb).length then
        let detected := autoDetectSheets wb
        (if optStrTruthy detected.1 then detected.1 else behaviorSheetName0,
         if optStrTruthy detected.2 then detected.2 else metricSheetName0)
      else (behaviorSheetName0, metricSheetName0)
    let issues1 : List String :=
      if !(optStrTruthy pair.1) && !(optStrTruthy autoDetected.1) then
        ["No sheet could be resolved for behavioral coaching data. Looking for columns: Behavior, Sub-Behavior, Coaching Count, Effectiveness%"]
      else []
    let issues2 : List String :=
      if !(optStrTruthy pair.2) && !(optStrTruthy autoDetected.2) then
        ["No sheet could be resolved for metric data. Looking for columns: Actual, Goal, PTG"]
      else []
    let behaviorRows :=
      match pair.1 with
      | some nm => if nm ≠ "" then (sheetLookup wb nm).getD [] else []
      | none => []
    let metricRows :=
      match pair.2 with
      | some nm => if nm ≠ "" then (sheetLookup wb nm).getD [] else []
      | none => []
    let br := parseBehaviorRows db behaviorRows (pair.1.getD "unknown") client
      opts.todayDays initStats tr skipDateFilter
    let mr := parseMetricRows db metricRows (pair.2.getD "unknown") client
      opts.todayDays initStats br.2.2 skipDateFilter
    let monthlyMetrics := mr.1.filter (fun r => !r.isActivityMetric)
    let activityMetrics := mr.1.filter (fun r => r.isActivityMetric)
    let issues3 : List String :=
      if 0 < br.2.1.filteredMissingData then
        [toString br.2.1.filteredMissingData ++
          " behavior rows filtered (missing required: organization, program, or month/year)"]
      else []
    let issues4 : List String :=
      if 0 < mr.2.1.filteredMissingData then
        [toString mr.2.1.filteredMissingData ++
          " metric rows filtered (missing required: organization, program, metric, or month/year)"]
      else []
    let issues5 : List String :=
      if !skipDateFilter then
        (if 0 < br.2.1.filteredTooRecent then
          [toString br.2.1.filteredTooRecent ++
            " behavior rows filtered (month not yet 9 days old)"]
        else []) ++
        (if 0 < mr.2.1.filteredTooRecent then
          [toString mr.2.1.filteredTooRecent ++
            " metric rows filtered (month not yet 9 days old)"]
        else [])
      else []
    Except.ok
      ({ behaviors := br.1,
         monthlyMetrics := monthlyMetrics,
         activityMetrics := activityMetrics,
         meta := { workbookName := opts.fileName, client := client,
                   behaviorSheet := pair.1, metricSheet := pair.2,
                   behaviorStats := br.2.1, metricStats := mr.2.1 },
         issues := issues1 ++ issues2 ++ issues3 ++ issues4 ++ issues5 },
       mr.2.2)

/-- The `forceType` option of `parseSingleSheet`. -/
inductive ForceType where
  | behaviors : ForceType
  | metrics : ForceType
deriving DecidableEq

/-- The detected sheet type of a single-sheet parse. -/
inductive DetectedType where
  | behaviors : DetectedType
  | metrics : DetectedType
  | unknown : DetectedType
deriving DecidableEq

/-- Options of `parseSingleSheet`. -/
structure ParseSingleSheetOptions where
  fileName : String
  clientOverride : Option String
  sheetName : Option String
  forceType : Option ForceType
  todayDays : Int
  skipDateFilter : Option Bool

/-- The single-sheet result. -/
structure ParseSingleSheetResult where
  behaviors : List ParsedBehaviorRow
  monthlyMetrics : List ParsedMetricRow
  activityMetrics : List ParsedMetricRow
  stats : DatasetStats
  sheetName : String
  detectedType : DetectedType
  columns : List String
  issues : List String
deriving DecidableEq

/-- The sheet choice of `parseSingleSheet`:
`options.sheetName && SheetNames.includes(options.sheetName) ? options.sheetName
: SheetNames[0]`. -/
def pickSingleSheetName (wb : Workbook) (hint : Option String) (n0 : String) : String :=
  match hint with
  | some h => if h ≠ "" && (sheetNames wb).contains h then h else n0
  | none => n0

/-- The non-throwing part of `parseSingleSheet` once the sheet's rows are in
hand: empty-sheet early return, type detection (or forcing), parsing. -/
def parseSingleSheetBody (db : DbResolvers) (opts : ParseSingleSheetOptions)
    (sheetName client : String) (skipDateFilter : Bool) (rows : List Row)
    (tr : Option TrackerState) : ParseSingleSheetResult × Option TrackerState :=
  if rows.isEmpty then
    ({ behaviors := [], monthlyMetrics := [], activityMetrics := [],
       stats := initStats, sheetName := sheetName,
       detectedType := DetectedType.unknown, columns := [],
       issues := ["Sheet is empty or has no data rows."] }, tr)
  else
    let columns := accessorKeys (rows.headD [])
    let detectedType :=
      match opts.forceType with
      | some ForceType.behaviors => DetectedType.behaviors
      | some ForceType.metrics => DetectedType.metrics
      | none =>
        if looksLikeBehaviorSheet rows then DetectedType.behaviors
        else if looksLikeMetricSheet rows then DetectedType.metrics
        else DetectedType.unknown
    match detectedType with
    | DetectedType.behaviors =>
      let br := parseBehaviorRows db rows sheetName client opts.todayDays
        initStats tr skipDateFilter
      ({ behaviors := br.1, monthlyMetrics := [], activityMetrics := [],
         stats := br.2.1, sheetName := sheetName,
         detectedType := DetectedType.behaviors, columns := columns,
         issues :=
           if 0 < br.2.1.filteredMissingData then
             [toString br.2.1.filteredMissingData ++
               " rows filtered (missing required: organization, program, or month/year)"]
           else [] }, br.2.2)
    | DetectedType.metrics =>
      let mr := parseMetricRows db rows sheetName client opts.todayDays
        initStats tr skipDateFilter
      ({ behaviors := [],
         monthlyMetrics := mr.1.filter (fun r => !r.isActivityMetric),
         activityMetrics := mr.1.filter (fun r => r.isActivityMetric),
         stats := mr.2.1, sheetName := sheetName,
         detectedType := DetectedType.metrics, columns := columns,
         issues :=
           if 0 < mr.2.1.filteredMissingData then
             [toString mr.2.1.filteredMissingData ++
               " rows filtered (missing required: organization, program, metric, or month/year)"]
           else [] }, mr.2.2)
    | DetectedType.unknown =>
      ({ behaviors := [], monthlyMetrics := [], activityMetrics := [],
         stats := initStats, sheetName := sheetName,
         detectedType := DetectedType.unknown, columns := columns,
         issues :=
           ["Could not auto-detect sheet type. Please specify whether this is behavioral or metrics data.",
            "Detected columns: " ++ String.intercalate ", " columns] }, tr)

/-- `parseSingleSheet`: throws only when the workbook has no sheets (a
missing sheet hint silently falls back to the first sheet); detects or is
forced to a dataset type and parses accordingly.  (The `Sheet not found`
throw of the source is kept; it is unreachable because the chosen name is
always one of the workbook's sheet names.) -/
def parseSingleSheet (db : DbResolvers) (opts : ParseSingleSheetOptions)
    (wb : Workbook) (tr : Option TrackerState) :
    Except String (ParseSingleSheetResult × Option TrackerState) :=
  match wb.sheets with
  | [] => Except.error "The uploaded workbook does not contain any sheets."
  | (n0, _) :: _ =>
    let client := opts.clientOverride.getD (inferClientFromFile opts.fileName)
    let skipDateFilter := opts.skipDateFilter.getD true
    let sheetName := pickSingleSheetName wb opts.sheetName n0
    match sheetLookup wb sheetName with
    | none => Except.error ("Sheet \"" ++ sheetName ++ "\" not found in workbook.")
    | some rows =>
      Except.ok (parseSingleSheetBody db opts sheetName client skipDateFilter rows tr)

/-- Is an `Except` result a success? -/
def exceptIsOk : Except ε α → Bool
  | Except.ok _ => true
  | Except.error _ => false

/-! ### C4: row-count conservation -/

theorem parseBehaviorRowsGo_delta (db : DbResolvers) (sheetName client : String)
    (todayDays : Int) (skip : Bool) :
    ∀ (rows : List Row) (index : Nat) (stats : DatasetStats) (tr : Option TrackerState),
      (parseBehaviorRowsGo db sheetName client todayDays skip rows index stats tr).2.1.totalRows =
        stats.totalRows + rows.length ∧
      (parseBehaviorRowsGo db sheetName client todayDays skip rows index stats tr).2.1.acceptedRows +
        (parseBehaviorRowsGo db sheetName client todayDays skip rows index stats tr).2.1.filteredMissingData +
        (parseBehaviorRowsGo db sheetName client todayDays skip rows index stats tr).2.1.filteredTooRecent =
        stats.acceptedRows + stats.filteredMissingData + stats.filteredTooRecent + rows.length := by
  intro rows
  induction rows with
  | nil =>
    intro index stats tr
    simp [parseBehaviorRowsGo]
  | cons row rest ih =>
    intro index stats tr
    cases hstep : behaviorRowStep db sheetName client todayDays skip row index tr with
    | missing =>
      simp only [parseBehaviorRowsGo, hstep, List.length_cons]
      obtain ⟨h1, h2⟩ := ih (index + 1)
        ⟨stats.totalRows + 1, stats.acceptedRows, stats.filteredMissingData + 1,
         stats.filteredTooRecent⟩ tr
      dsimp only at h1 h2
      exact ⟨by omega, by omega⟩
    | tooRecent =>
      simp only [parseBehaviorRowsGo, hstep, List.length_cons]
      obtain ⟨h1, h2⟩ := ih (index + 1)
        ⟨stats.totalRows + 1, stats.acceptedRows, stats.filteredMissingData,
         stats.filteredTooRecent + 1⟩ tr
      dsimp only at h1 h2
      exact ⟨by omega, by omega⟩
    | accepted record tr' =>
      simp only [parseBehaviorRowsGo, hstep, List.length_cons]
      obtain ⟨h1, h2⟩ := ih (index + 1)
        ⟨stats.totalRows + 1, stats.acceptedRows + 1, stats.filteredMissingData,
         stats.filteredTooRecent⟩ tr'
      dsimp only at h1 h2
      exact ⟨by omega, by omega⟩

theorem parseMetricRowsGo_delta (db : DbResolvers) (sheetName client : String)
    (todayDays : Int) (skip : Bool) :
    ∀ (rows : List Row) (index : Nat) (stats : DatasetStats) (tr : Option TrackerState),
      (parseMetricRowsGo db sheetName client todayDays skip rows index stats tr).2.1.totalRows =
        stats.totalRows + rows.length ∧
      (parseMetricRowsGo db sheetName client todayDays skip rows index stats tr).2.1.acceptedRows +
        (parseMetricRowsGo db sheetName client todayDays skip rows index stats tr).2.1.filteredMissingData +
        (parseMetricRowsGo db sheetName client todayDays skip rows index stats tr).2.1.filteredTooRecent =
        stats.acceptedRows + stats.filteredMissingData + stats.filteredTooRecent + rows.length := by
  intro rows
  induction rows with
  | nil =>
    intro index stats tr
    simp [parseMetricRowsGo]
  | cons row rest ih =>
    intro index stats tr
    cases hstep : metricRowStep db sheetName client todayDays skip row index tr with
    | missing =>
      simp only [parseMetricRowsGo, hstep, List.length_cons]
      obtain ⟨h1, h2⟩ := ih (index + 1)
        ⟨stats.totalRows + 1, stats.acceptedRows, stats.filteredMissingData + 1,
         stats.filteredTooRecent⟩ tr
      dsimp only at h1 h2
      exact ⟨by omega, by omega⟩
    | tooRecent =>
      simp only [parseMetricRowsGo, hstep, List.length_cons]
      obtain ⟨h1, h2⟩ := ih (index + 1)
        ⟨stats.totalRows + 1, stats.acceptedRows, stats.filteredMissingData,
         stats.filteredTooRecent + 1⟩ tr
      dsimp only at h1 h2
      exact ⟨by omega, by omega⟩
    | accepted record tr' =>
      simp only [parseMetricRowsGo, hstep, List.length_cons]
      obtain ⟨h1, h2⟩ := ih (index + 1)
        ⟨stats.totalRows + 1, stats.acceptedRows + 1, stats.filteredMissingData,
         stats.filteredTooRecent⟩ tr'
      dsimp only at h1 h2
      exact ⟨by omega, by omega⟩

/-- C4: after parsing any sequence of rows with either transformer, starting
from statistics satisfying the conservation invariant, the final statistics
satisfy `totalRows = acceptedRows + filteredMissingData + filteredTooRecent`,
and `totalRows` grows by exactly the number of rows (each row is counted
once, in exactly one outcome bucket). -/
theorem c4_stats_conservation :
    (∀ (db : DbResolvers) (rows : List Row) (sheetName client : String)
        (todayDays : Int) (stats : DatasetStats) (tr : Option TrackerState) (skip : Bool),
      stats.totalRows = stats.acceptedRows + stats.filteredMissingData + stats.filteredTooRecent →
      ((parseBehaviorRows db rows sheetName client todayDays stats tr skip).2.1.totalRows =
        (parseBehaviorRows db rows sheetName client todayDays stats tr skip).2.1.acceptedRows +
        (parseBehaviorRows db rows sheetName client todayDays stats tr skip).2.1.filteredMissingData +
        (parseBehaviorRows db rows sheetName client todayDays stats tr skip).2.1.filteredTooRecent ∧
       (parseBehaviorRows db rows sheetName client todayDays stats tr skip).2.1.totalRows =
        stats.totalRows + rows.length)) ∧
    (∀ (db : DbResolvers) (rows : List Row) (sheetName client : String)
        (todayDays : Int) (stats : DatasetStats) (tr : Option TrackerState) (skip : Bool),
      stats.totalRows = stats.acceptedRows + stats.filteredMissingData + stats.filteredTooRecent →
      ((parseMetricRows db rows sheetName client todayDays stats tr skip).2.1.totalRows =
        (parseMetricRows db rows sheetName client todayDays stats tr skip).2.1.acceptedRows +
        (parseMetricRows db rows sheetName client todayDays stats tr skip).2.1.filteredMissingData +
        (parseMetricRows db rows sheetName client todayDays stats tr skip).2.1.filteredTooRecent ∧
       (parseMetricRows db rows sheetName client todayDays stats tr skip).2.1.totalRows =
        stats.totalRows + rows.length)) := by
  constructor
  · intro db rows sheetName client todayDays stats tr skip hinv
    obtain ⟨h1, h2⟩ := parseBehaviorRowsGo_delta db sheetName client todayDays skip
      rows 0 stats tr
    rw [parseBehaviorRows]
    exact ⟨by omega, h1⟩
  · intro db rows sheetName client todayDays stats tr skip hinv
    obtain ⟨h1, h2⟩ := parseMetricRowsGo_delta db sheetName client todayDays skip
      rows 0 stats tr
    rw [parseMetricRows]
    exact ⟨by omega, h1⟩

/-- C4 (witness): conservation at a concrete two-row parse (one accepted row,
one row missing required data) starting from `initStats`. -/
theorem c4_stats_conservation_witness :
    ((parseBehaviorRows noDbResolvers
        [[("Month", CellValue.str "Jun-25"), ("Organization", CellValue.str "Acme"),
          ("Program", CellValue.str "Care"), ("Behavior", CellValue.str "Empathy")],
         []]
        "S" "C" 20000 initStats (some initTracker) true).2.1.totalRows =
      (parseBehaviorRows noDbResolvers
        [[("Month", CellValue.str "Jun-25"), ("Organization", CellValue.str "Acme"),
          ("Program", CellValue.str "Care"), ("Behavior", CellValue.str "Empathy")],
         []]
        "S" "C" 20000 initStats (some initTracker) true).2.1.acceptedRows +
      (parseBehaviorRows noDbResolvers
        [[("Month", CellValue.str "Jun-25"), ("Organization", CellValue.str "Acme"),
          ("Program", CellValue.str "Care"), ("Behavior", CellValue.str "Empathy")],
         []]
        "S" "C" 20000 initStats (some initTracker) true).2.1.filteredMissingData +
      (parseBehaviorRows noDbResolvers
        [[("Month", CellValue.str "Jun-25"), ("Organization", CellValue.str "Acme"),
          ("Program", CellValue.str "Care"), ("Behavior", CellValue.str "Empathy")],
         []]
        "S" "C" 20000 initStats (some initTracker) true).2.1.filteredTooRecent ∧
     (parseBehaviorRows noDbResolvers
        [[("Month", CellValue.str "Jun-25"), ("Organization", CellValue.str "Acme"),
          ("Program", CellValue.str "Care"), ("Behavior", CellValue.str "Empathy")],
         []]
        "S" "C" 20000 initStats (some initTracker) true).2.1.totalRows =
      initStats.totalRows + 2) := by
  have h := c4_stats_conservation.1 noDbResolvers
    [[("Month", CellValue.str "Jun-25"), ("Organization", CellValue.str "Acme"),
      ("Program", CellValue.str "Care"), ("Behavior", CellValue.str "Empathy")],
     []]
    "S" "C" 20000 initStats (some initTracker) true (by decide)
  exact ⟨h.1, h.2⟩

/-! ### C2: the activity-metric split (code bug)

The repository's own test (`parseWorkbook.test.ts`) and documentation
(`docs/upload-pipeline.md`) state that metric rows whose `Program` is the
sentinel `ACTIVITY METRICS` land in the `activityMetrics` bucket, but the
implementation hard-codes `isActivityMetric: false` on every parsed metric
record, so the activity bucket is always empty and the sentinel row lands in
`monthlyMetrics`. -/

/-- The metric sheet of the repository's own workbook test: one
`Performance` row and one `ACTIVITY METRICS` row. -/
def c2MetricSheetRows : List Row :=
  [[("Month Year", CellValue.str "Jun-25"),
    ("organization", CellValue.str "United Health Group"),
    ("Program", CellValue.str "Performance"),
    ("Metric", CellValue.str "NPS Score"),
    ("Actual", CellValue.str "78.4"), ("Goal", CellValue.str "80"),
    ("PTG", CellValue.str "98%")],
   [("Month Year", CellValue.str "Jun-25"),
    ("organization", CellValue.str "United Health Group"),
    ("Program", CellValue.str "ACTIVITY METRICS"),
    ("Metric", CellValue.str "Calls"),
    ("Actual", CellValue.str "1200"), ("Goal", CellValue.str "1000"),
    ("PTG", CellValue.str "120")]]

/-- The two-sheet workbook of the repository's own test. -/
def c2Workbook : Workbook :=
  ⟨[("Client_Effectiveness",
     [[("Month_Year", CellValue.str "Jun-25"),
       ("organization", CellValue.str "United Health Group"),
       ("Program", CellValue.str "NPS PROGRAM"),
       ("Behavior", CellValue.str "Product Knowledge"),
       ("Coaching Count", CellValue.str "42"),
       ("Effectiveness%", CellValue.str "55%"),
       ("Metric", CellValue.str "Chat NPS")]]),
    ("Client_Goal", c2MetricSheetRows)]⟩

/-- The parse options of the test (client override set; the date filter is
off by default). -/
def c2Options : ParseWorkbookOptions :=
  { fileName := "TTEC_Data.xlsx", clientOverride := some "TTEC",
    behaviorSheetHint := none, metricSheetHint := none,
    todayDays := 20279, skipDateFilter := none }

/-- C2 (code evaluated at the failing input): both metric rows are accepted,
yet the `ACTIVITY METRICS` row is emitted with `isActivityMetric = false`
and lands in the monthly bucket; the activity bucket is empty — contradicting
the claim (and the repository's test, which expects one record in each
bucket). -/
theorem c2_activity_split_code_bug_eval :
    ((parseWorkbook noDbResolvers c2Options c2Workbook none).toOption.map (fun p =>
      (p.1.activityMetrics.length,
       p.1.monthlyMetrics.map (fun r => r.program),
       p.1.monthlyMetrics.map (fun r => r.isActivityMetric),
       p.1.meta.metricStats.acceptedRows))) =
    some (0, [some "Performance", some "ACTIVITY METRICS"], [false, false], 2) := by
  decide

/-! ### C9: structural failure conditions -/

theorem sheetLookup_isSome_of_mem {wb : Workbook} {nm : String}
    (h : nm ∈ sheetNames wb) : (sheetLookup wb nm).isSome := by
  rw [sheetNames] at h
  obtain ⟨e, he, heq⟩ := List.mem_map.mp h
  have hfind : (wb.sheets.find? (fun en => en.1 == nm)).isSome :=
    List.find?_isSome.mpr ⟨e, he, by simp [heq]⟩
  rw [sheetLookup]
  simpa using hfind

theorem pickSingleSheetName_mem {wb : Workbook} {hint : Option String} {n0 : String}
    (h0 : n0 ∈ sheetNames wb) : pickSingleSheetName wb hint n0 ∈ sheetNames wb := by
  cases hint with
  | none => exact h0
  | some h =>
    rw [pickSingleSheetName]
    by_cases hc : (h ≠ "" && (sheetNames wb).contains h) = true
    · rw [if_pos hc]
      rw [Bool.and_eq_true] at hc
      exact List.elem_iff.mp hc.2
    · rw [if_neg hc]
      exact h0

/-- C9 (counterexample): a caller-supplied sheet hint that does not exist in
the workbook does *not* fail the parse: both `parseSingleSheet` and
`parseWorkbook` succeed, silently falling back (here to the only sheet,
`"Data"`). -/
theorem c9_missing_hint_counterexample :
    ¬ ("Missing" ∈ sheetNames ⟨[("Data", [[("Behavior", CellValue.str "b")]])]⟩) ∧
    exceptIsOk (parseSingleSheet noDbResolvers
      { fileName := "t.xlsx", clientOverride := some "T", sheetName := some "Missing",
        forceType := none, todayDays := 20000, skipDateFilter := none }
      ⟨[("Data", [[("Behavior", CellValue.str "b")]])]⟩ none) = true ∧
    ((parseSingleSheet noDbResolvers
      { fileName := "t.xlsx", clientOverride := some "T", sheetName := some "Missing",
        forceType := none, todayDays := 20000, skipDateFilter := none }
      ⟨[("Data", [[("Behavior", CellValue.str "b")]])]⟩ none).toOption.map
        (fun p => p.1.sheetName)) = some "Data" ∧
    exceptIsOk (parseWorkbook noDbResolvers
      { fileName := "t.xlsx", clientOverride := some "T",
        behaviorSheetHint := some "Missing", metricSheetHint := some "Missing",
        todayDays := 20000, skipDateFilter := none }
      ⟨[("Data", [[("Behavior", CellValue.str "b")]])]⟩ none) = true := by
  exact ⟨by decide, by decide, by decide, by decide⟩

/-- C9 (amended): a parse fails as a whole — a hard `Except.error` with a
descriptive message, no partial result — exactly when the source file
contains no sheets at all; a named sheet hint that does not exist silently
falls back (keyword match or first sheet) and is not a failure. -/
theorem c9_structural_failure_amended :
    (∀ (db : DbResolvers) (opts : ParseWorkbookOptions) (wb : Workbook)
        (tr : Option TrackerState),
      exceptIsOk (parseWorkbook db opts wb tr) = true ↔ wb.sheets ≠ []) ∧
    (∀ (db : DbResolvers) (opts : ParseSingleSheetOptions) (wb : Workbook)
        (tr : Option TrackerState),
      exceptIsOk (parseSingleSheet db opts wb tr) = true ↔ wb.sheets ≠ []) := by
  constructor
  · intro db opts wb tr
    obtain ⟨sheets⟩ := wb
    cases sheets with
    | nil => simp [parseWorkbook, sheetNames, exceptIsOk]
    | cons hd tl => simp [parseWorkbook, sheetNames, exceptIsOk]
  · intro db opts wb tr
    obtain ⟨sheets⟩ := wb
    cases sheets with
    | nil => simp [parseSingleSheet, exceptIsOk]
    | cons hd tl =>
      obtain ⟨n0, rows0⟩ := hd
      have h0 : n0 ∈ sheetNames ⟨(n0, rows0) :: tl⟩ := by simp [sheetNames]
      have hmem : pickSingleSheetName ⟨(n0, rows0) :: tl⟩ opts.sheetName n0 ∈
          sheetNames ⟨(n0, rows0) :: tl⟩ :=
        pickSingleSheetName_mem h0
      obtain ⟨rows, hrows⟩ :=
        Option.isSome_iff_exists.mp (sheetLookup_isSome_of_mem hmem)
      simp [parseSingleSheet, hrows, exceptIsOk]

end UploadBPO
